import Mathlib

set_option maxRecDepth 4000

/-!
Verification of the HTTP call contract of the adsnap-studio service layer.

The development shallowly embeds the three public service functions of the
repository — `erase_foreground` (services/erase_foreground.py),
`generate_hd_image` (services/hd_image_generation.py) and
`lifestyle_shot_by_text` (services/lifestyle_shot.py) — as pure Lean
functions from their arguments and a network environment (the sequence of
outcomes of the POST requests the call issues) to a call trace: the list of
issued requests, the list of printed log lines, the list of sleep durations,
and the final result (decoded JSON value or raised error).

Python strings are Lean `String`s, bytes are lists of naturals, Python
floats are rationals (every float the code manipulates — 1.0, 1.5, 15,
clamp bounds — is exactly representable), and Python dicts that the code
builds by insertion are association lists in insertion order.
-/

namespace AdSnap

/-! ## Text occurrence -/

/-- `needle` occurs as a contiguous substring of `hay`. -/
abbrev occursIn (needle hay : String) : Prop := needle.data <:+: hay.data

/-! ## Python primitives used by the source -/

/-- The characters `str.strip()` removes. -/
def pyWhitespace : List Char := [' ', '\t', '\n', '\r', '\x0b', '\x0c']

/-- Python `str.strip()`: drop leading and trailing whitespace. -/
def pyStrip (s : String) : String :=
  ⟨((s.data.dropWhile (fun c => pyWhitespace.contains c)).reverse.dropWhile
      (fun c => pyWhitespace.contains c)).reverse⟩

/-- Bytes: a Python `bytes` value, one natural (< 256) per byte. -/
abbrev Bytes := List Nat

def b64Alphabet : List Char :=
  "ABCDEFGHIJKLMNOPQRSTUVWXYZabcdefghijklmnopqrstuvwxyz0123456789+/".data

def b64Char (n : Nat) : Char := b64Alphabet.getD n 'A'

/-- `base64.b64encode` on a byte list, producing the ASCII characters. -/
def b64encodeList : List Nat → List Char
  | a :: b :: c :: rest =>
    let n := a * 65536 + b * 256 + c
    b64Char (n / 262144) :: b64Char (n / 4096 % 64) :: b64Char (n / 64 % 64) ::
      b64Char (n % 64) :: b64encodeList rest
  | [a, b] =>
    let n := a * 65536 + b * 256
    [b64Char (n / 262144), b64Char (n / 4096 % 64), b64Char (n / 64 % 64), '=']
  | [a] =>
    let n := a * 65536
    [b64Char (n / 262144), b64Char (n / 4096 % 64), '=', '=']
  | [] => []

/-- `base64.b64encode(image_data).decode("utf-8")`. -/
def b64encode (bs : Bytes) : String := ⟨b64encodeList bs⟩

/-- `_mask_key` from services/erase_foreground.py (identical copy in
services/hd_image_generation.py):
`if not key: return "<no-key>"` then `f"{key[:4]}...{key[-4:]}"`.
The argument is `Optional[str]`; `not key` is true for `None` and `""`. -/
def _mask_key : Option String → String
  | none => "<no-key>"
  | some k =>
    if k = "" then "<no-key>"
    else (⟨k.data.take 4⟩ : String) ++ "..." ++ (⟨k.data.drop (k.data.length - 4)⟩ : String)

/-- Python `f"{x:.1f}"` for a non-negative float that is an exact rational:
round to one decimal place, ties to even (the values formatted by the code
are 1.5 and 2.25, both exact in binary floating point). -/
def fmt1f (q : ℚ) : String :=
  let t : Int := ⌊q * 10⌋
  let n : Int :=
    if q * 10 - t > 1/2 then t + 1
    else if q * 10 - t < 1/2 then t
    else if t % 2 = 0 then t else t + 1
  toString (n / 10) ++ "." ++ toString (n % 10)

/-- Python truthiness of an `Optional[str]`. -/
def truthyOptStr : Option String → Bool
  | none => false
  | some s => s ≠ ""

/-- Python truthiness of a `str`. -/
def truthyStr (s : String) : Bool := s ≠ ""

/-- Python truthiness of an `Optional[bytes]`. -/
def truthyOptBytes : Option Bytes → Bool
  | none => false
  | some b => !b.isEmpty

/-! ## JSON payload values -/

/-- A JSON-serializable Python value appearing in the request payloads. -/
inductive JVal where
  | s (v : String)
  | n (v : Int)
  | q (v : ℚ)
  | b (v : Bool)
  | ln (v : List Int)
  | ls (v : List String)
deriving DecidableEq

/-- A dict-insertion guarded by a Python `if` on a truthiness test:
the entries `l` are present exactly when `b` is true. -/
def guardSeg (b : Bool) (l : List (String × JVal)) : List (String × JVal) :=
  if b then l else []

/-- A dict-insertion guarded by `if x is not None:`: the single entry
`(key, f v)` is present exactly when the optional holds `v`. -/
def optField {α : Type} (o : Option α) (key : String) (f : α → JVal) :
    List (String × JVal) :=
  match o with
  | some v => [(key, f v)]
  | none => []

/-- Python `repr` of a string (the code only ever reprs header and payload
values without quotes or escapes inside). -/
def pyStrRepr (s : String) : String := "\x27" ++ s ++ "\x27"

/-- Python `str`/`repr` of a payload value. The only payload the code
prints (lifestyle shot) contains no float values, so the `.q` case is
unreachable in every printed payload. -/
def jvalRepr : JVal → String
  | .s v => pyStrRepr v
  | .n v => toString v
  | .q v => toString v
  | .b v => if v then "True" else "False"
  | .ln vs => "[" ++ String.intercalate ", " (vs.map toString) ++ "]"
  | .ls vs => "[" ++ String.intercalate ", " (vs.map pyStrRepr) ++ "]"

/-- Python `str` of a `dict[str, str]` (insertion order). -/
def headersRepr (hs : List (String × String)) : String :=
  "\x7b" ++ String.intercalate ", "
    (hs.map fun p => pyStrRepr p.1 ++ ": " ++ pyStrRepr p.2) ++ "\x7d"

/-- Python `str` of the payload dict (insertion order). -/
def payloadRepr (ps : List (String × JVal)) : String :=
  "\x7b" ++ String.intercalate ", "
    (ps.map fun p => pyStrRepr p.1 ++ ": " ++ jvalRepr p.2) ++ "\x7d"

/-! ## HTTP model -/

/-- One outbound POST request as handed to `requests.post`. `timeout` is
`none` when the call passes no timeout argument (requests then waits
indefinitely). -/
structure Request where
  url : String
  headers : List (String × String)
  body : List (String × JVal)
  timeout : Option ℚ
deriving DecidableEq

instance exceptDecEq {ε α : Type} [DecidableEq ε] [DecidableEq α] :
    DecidableEq (Except ε α) := fun a b =>
  match a, b with
  | .ok x, .ok y => if h : x = y then .isTrue (by rw [h]) else .isFalse (by simp [h])
  | .error x, .error y => if h : x = y then .isTrue (by rw [h]) else .isFalse (by simp [h])
  | .ok _, .error _ => .isFalse (by simp)
  | .error _, .ok _ => .isFalse (by simp)

/-- An HTTP response. `jsonParse` is the outcome of `response.json()`:
`.ok v` when the body decodes to the JSON value `v`, `.error d` when the
body is not valid JSON and decoding raises `ValueError` with message `d`. -/
structure HttpResponse where
  status : Nat
  reason : String
  text : String
  jsonParse : Except String String
deriving DecidableEq

/-- Outcome of one `requests.post` call: a transport-level
`requests.RequestException` (connection error, timeout) with message `d`,
or a response. -/
inductive NetResult where
  | transportError (d : String)
  | response (r : HttpResponse)
deriving DecidableEq

/-- The network environment: the outcome of the n-th POST issued by a call. -/
abbrev Net := Nat → NetResult

/-- Errors a call can raise: Python `ValueError` (input validation) or
plain `Exception`. -/
inductive PyErr where
  | valueError (msg : String)
  | exception (msg : String)
deriving DecidableEq

def PyErr.msg : PyErr → String
  | .valueError m => m
  | .exception m => m

/-- Everything one call produces: requests issued (in order), log lines
printed (in order), sleep durations (in order), and the result. -/
structure CallTrace where
  reqs : List Request
  logs : List String
  sleeps : List ℚ
  result : Except PyErr String
deriving DecidableEq

/-- `str(requests.HTTPError)` as built by `Response.raise_for_status`:
`f"{status_code} Client Error: {reason} for url: {url}"` for 4xx and
`... Server Error ...` for 5xx. Note the response body text is NOT part
of this message. -/
def httpErrorStr (status : Nat) (reason url : String) : String :=
  toString status ++ (if status < 500 then " Client Error: " else " Server Error: ") ++
    reason ++ " for url: " ++ url

/-- How the shared retry loop classifies the outcome of one attempt. -/
inductive AttemptClass where
  | successC (v : String)
  | terminalC (status : Nat) (text : String)
  | decodeC (d : String)
  | transientC (d : String)
deriving DecidableEq

/-- Classification of one attempt, mirroring the `try/except` dispatch of
the two retrying functions:
`requests.post` raising `RequestException` → transient;
`raise_for_status` raises `HTTPError` iff `400 ≤ status < 600`, and the
handler re-raises terminally when `status and 400 <= status < 500 and
status != 429`, otherwise records it as transient (its description is
`str(HTTPError)`); otherwise `response.json()` runs: a decode failure is
a `ValueError` → terminal decode error; otherwise success. -/
def classify (url : String) : NetResult → AttemptClass
  | .transportError d => .transientC d
  | .response r =>
    if 400 ≤ r.status ∧ r.status < 600 then
      if r.status ≠ 0 ∧ 400 ≤ r.status ∧ r.status < 500 ∧ r.status ≠ 429 then
        .terminalC r.status r.text
      else
        .transientC (httpErrorStr r.status r.reason url)
    else
      match r.jsonParse with
      | .ok v => .successC v
      | .error d => .decodeC d

/-- The environment-supplied strings of one attempt outcome (used to state
that a credential does not flow in from the network side). -/
def netResultStrings : NetResult → List String
  | .transportError d => [d]
  | .response r =>
    [toString r.status, r.reason, r.text] ++
      (match r.jsonParse with
       | .ok _ => []
       | .error e => [e])

/-! ## Shared retry executor -/

/-- `DEFAULT_TIMEOUT = 15` (seconds). -/
def DEFAULT_TIMEOUT : ℚ := 15
/-- `RETRY_COUNT = 2`. -/
def RETRY_COUNT : Nat := 2
/-- `RETRY_BACKOFF = 1.5`. -/
def RETRY_BACKOFF : ℚ := 3/2
/-- `backoff = 1.0`, never reassigned by the loop. -/
def BACKOFF_INIT : ℚ := 1

/-- The per-endpoint message builders of the (textually duplicated) retry
loop. -/
structure LoopCfg where
  attemptLog : Nat → String
  retryLog : String → Nat → String
  httpFailMsg : Nat → String → String
  decodeFailMsg : String → String
  exhaustedMsg : String → String

/-- Python `str` applied to `last_exc` (`str(None) = "None"`). -/
def strOfLast : Option String → String
  | none => "None"
  | some d => d

/-- The retry loop `while attempt <= RETRY_COUNT` of erase_foreground.py /
hd_image_generation.py: per iteration it prints the attempt log, issues the
POST, classifies the outcome; terminal outcomes raise at once, transient
outcomes increment `attempt` and, when `attempt <= RETRY_COUNT` still
holds, print the retry log and sleep `backoff * RETRY_BACKOFF ** attempt`;
leaving the loop raises the exhausted-retries error carrying `last_exc`.
`fuel` counts the loop iterations left (entry: `RETRY_COUNT + 1`). -/
def runLoop (cfg : LoopCfg) (req : Request) (net : Net) :
    Nat → Nat → Option String → CallTrace
  | 0, _, lastExc =>
    ⟨[], [], [], .error (.exception (cfg.exhaustedMsg (strOfLast lastExc)))⟩
  | fuel + 1, attempt, _ =>
    let alog := cfg.attemptLog attempt
    match classify req.url (net attempt) with
    | .successC v => ⟨[req], [alog], [], .ok v⟩
    | .terminalC s t => ⟨[req], [alog], [], .error (.exception (cfg.httpFailMsg s t))⟩
    | .decodeC d => ⟨[req], [alog], [], .error (.exception (cfg.decodeFailMsg d))⟩
    | .transientC d =>
      let rest := runLoop cfg req net fuel (attempt + 1) (some d)
      if attempt + 1 ≤ RETRY_COUNT then
        ⟨req :: rest.reqs, alog :: cfg.retryLog d (attempt + 1) :: rest.logs,
         BACKOFF_INIT * RETRY_BACKOFF ^ (attempt + 1) :: rest.sleeps, rest.result⟩
      else
        ⟨req :: rest.reqs, alog :: rest.logs, rest.sleeps, rest.result⟩

/-- A call that raised before any network activity. -/
def emptyTrace (e : PyErr) : CallTrace := ⟨[], [], [], .error e⟩

/-! ## erase_foreground (services/erase_foreground.py) -/

structure EraseArgs where
  api_key : String
  image_data : Option Bytes := none
  image_url : Option String := none
  content_moderation : Bool := false

def eraseUrl : String := "https://engine.prod.bria-api.com/v1/erase_foreground"

def erase_headers (api_key : String) : List (String × String) :=
  [("Accept", "application/json"),
   ("Content-Type", "application/json"),
   ("api_token", api_key),
   ("Authorization", "Bearer " ++ api_key)]

def erase_payload (a : EraseArgs) : List (String × JVal) :=
  [("content_moderation", .b a.content_moderation)] ++
  (if truthyOptStr a.image_url then [("image_url", .s (a.image_url.getD ""))]
   else [("file", .s (b64encode (a.image_data.getD [])))])

def eraseCfg (api_key : String) : LoopCfg where
  attemptLog a :=
    "[erase_foreground] Request → " ++ eraseUrl ++ " attempt=" ++ toString a ++
      " api_key=" ++ _mask_key (some api_key)
  retryLog d a :=
    "[erase_foreground] transient error: " ++ d ++ ". Retrying in " ++
      fmt1f (BACKOFF_INIT * RETRY_BACKOFF ^ a) ++ "s..."
  httpFailMsg s t := "Erase foreground failed (HTTP " ++ toString s ++ "): " ++ t
  decodeFailMsg d := "Non-JSON response: " ++ d
  exhaustedMsg d :=
    "Erase foreground failed after " ++ toString (RETRY_COUNT + 1) ++ " attempts: " ++ d

/-- `erase_foreground(api_key, image_data, image_url, content_moderation)`. -/
def erase_foreground (a : EraseArgs) (net : Net) : CallTrace :=
  if a.api_key = "" then emptyTrace (.valueError "API key is missing")
  else if !(truthyOptBytes a.image_data || truthyOptStr a.image_url) then
    emptyTrace (.valueError "Either image_data or image_url must be provided")
  else
    runLoop (eraseCfg a.api_key)
      ⟨eraseUrl, erase_headers a.api_key, erase_payload a, some DEFAULT_TIMEOUT⟩
      net (RETRY_COUNT + 1) 0 none

/-! ## generate_hd_image (services/hd_image_generation.py) -/

structure HdArgs where
  prompt : String
  api_key : String
  model_version : String := "2.2"
  num_results : Int := 1
  aspect_ratio : String := "1:1"
  sync : Bool := true
  seed : Option Int := none
  negative_prompt : Option String := none
  steps_num : Option Int := none
  text_guidance_scale : Option ℚ := none
  medium : Option String := none
  prompt_enhancement : Bool := false
  enhance_image : Bool := false
  content_moderation : Bool := false
  ip_signal : Bool := false

def hdUrl (model_version : String) : String :=
  "https://engine.prod.bria-api.com/v1/text-to-image/hd/" ++ model_version

def hd_headers (api_key : String) : List (String × String) :=
  [("Accept", "application/json"),
   ("Content-Type", "application/json")] ++
  (if api_key ≠ "" then
    [("api_token", api_key), ("Authorization", "Bearer " ++ api_key)]
   else [])

def hd_payload (a : HdArgs) : List (String × JVal) :=
  [("prompt", .s a.prompt),
   ("num_results", .n (max 1 (min a.num_results 4))),
   ("sync", .b a.sync)] ++
  guardSeg (truthyOptStr a.negative_prompt)
    [("negative_prompt", .s (a.negative_prompt.getD ""))] ++
  guardSeg (truthyStr a.aspect_ratio) [("aspect_ratio", .s a.aspect_ratio)] ++
  optField a.seed "seed" (fun v => .n v) ++
  optField a.steps_num "steps_num" (fun v => .n (max 20 (min v 50))) ++
  optField a.text_guidance_scale "text_guidance_scale" (fun v => .q (max 1 (min v 10))) ++
  guardSeg (truthyOptStr a.medium) [("medium", .s (a.medium.getD ""))] ++
  guardSeg a.prompt_enhancement [("prompt_enhancement", .b true)] ++
  guardSeg a.enhance_image [("enhance_image", .b true)] ++
  guardSeg a.content_moderation [("content_moderation", .b true)] ++
  guardSeg a.ip_signal [("ip_signal", .b true)]

def hdCfg (api_key model_version : String) : LoopCfg where
  attemptLog a :=
    "[generate_hd_image] Request to " ++ hdUrl model_version ++ " attempt=" ++
      toString a ++ " api_key=" ++ _mask_key (some api_key)
  retryLog d a :=
    "[generate_hd_image] transient error: " ++ d ++ ". Retrying in " ++
      fmt1f (BACKOFF_INIT * RETRY_BACKOFF ^ a) ++ "s..."
  httpFailMsg s t := "HD image generation failed (HTTP " ++ toString s ++ "): " ++ t
  decodeFailMsg d := "HD image generation returned non-JSON response: " ++ d
  exhaustedMsg d :=
    "HD image generation failed after " ++ toString (RETRY_COUNT + 1) ++ " attempts: " ++ d

/-- `generate_hd_image(prompt, api_key, ...)`. Note: only the prompt is
validated; the credential headers are simply omitted when `api_key` is
falsy and the request is issued anyway. -/
def generate_hd_image (a : HdArgs) (net : Net) : CallTrace :=
  if a.prompt = "" then emptyTrace (.valueError "Prompt is required for image generation")
  else
    runLoop (hdCfg a.api_key a.model_version)
      ⟨hdUrl a.model_version, hd_headers a.api_key, hd_payload a, some DEFAULT_TIMEOUT⟩
      net (RETRY_COUNT + 1) 0 none

/-! ## lifestyle_shot_by_text (services/lifestyle_shot.py) -/

structure LifestyleArgs where
  api_key : String
  image_data : Bytes
  scene_description : String
  placement_type : String := "original"
  num_results : Int := 4
  sync : Bool := false
  fast : Bool := true
  optimize_description : Bool := true
  original_quality : Bool := false
  exclude_elements : Option String := none
  shot_size : List Int := [1000, 1000]
  manual_placement_selection : List String := ["upper_left"]
  padding_values : List Int := [0, 0, 0, 0]
  foreground_image_size : Option (List Int) := none
  foreground_image_location : Option (List Int) := none
  force_rmbg : Bool := false
  content_moderation : Bool := false
  sku : Option String := none

def lifestyleUrl : String :=
  "https://engine.prod.bria-api.com/v1/product/lifestyle_shot_by_text"

def lifestyle_headers (api_key : String) : List (String × String) :=
  [("api_token", pyStrip api_key),
   ("Accept", "application/json"),
   ("Content-Type", "application/json")]

def truthyOptList (o : Option (List Int)) : Bool :=
  match o with
  | none => false
  | some l => !l.isEmpty

def lifestyle_payload (a : LifestyleArgs) : List (String × JVal) :=
  [("file", .s (b64encode a.image_data)),
   ("scene_description", .s a.scene_description),
   ("placement_type", .s a.placement_type),
   ("num_results", .n a.num_results),
   ("sync", .b a.sync),
   ("fast", .b a.fast),
   ("optimize_description", .b a.optimize_description),
   ("original_quality", .b a.original_quality),
   ("force_rmbg", .b a.force_rmbg),
   ("content_moderation", .b a.content_moderation)] ++
  guardSeg (truthyOptStr a.exclude_elements && !a.fast)
    [("exclude_elements", .s (a.exclude_elements.getD ""))] ++
  guardSeg (a.placement_type == "automatic" || a.placement_type == "manual_placement" ||
      a.placement_type == "custom_coordinates")
    [("shot_size", .ln a.shot_size)] ++
  guardSeg (a.placement_type == "manual_placement")
    [("manual_placement_selection", .ls a.manual_placement_selection)] ++
  guardSeg (a.placement_type == "manual_padding")
    [("padding_values", .ln a.padding_values)] ++
  guardSeg (a.placement_type == "custom_coordinates")
    (guardSeg (truthyOptList a.foreground_image_size)
      [("foreground_image_size", .ln (a.foreground_image_size.getD []))] ++
     guardSeg (truthyOptList a.foreground_image_location)
      [("foreground_image_location", .ln (a.foreground_image_location.getD []))]) ++
  guardSeg (truthyOptStr a.sku) [("sku", .s (a.sku.getD ""))]

/-- `lifestyle_shot_by_text(api_key, image_data, scene_description, ...)`.
No input validation, a single POST with no timeout and no retry; the
headers dict (containing the raw credential) and the payload are printed
before the POST; any failure is re-raised as
`Exception(f"Lifestyle shot generation failed: {str(e)}")`. -/
def lifestyle_shot_by_text (a : LifestyleArgs) (net : Net) : CallTrace :=
  let headers := lifestyle_headers a.api_key
  let data := lifestyle_payload a
  let req : Request := ⟨lifestyleUrl, headers, data, none⟩
  let baseLogs := ["Sending Request → lifestyle_shot_by_text",
                   "Headers: " ++ headersRepr headers,
                   "Payload: " ++ payloadRepr data]
  match net 0 with
  | .transportError d =>
    ⟨[req], baseLogs, [], .error (.exception ("Lifestyle shot generation failed: " ++ d))⟩
  | .response r =>
    if 400 ≤ r.status ∧ r.status < 600 then
      ⟨[req], baseLogs, [],
       .error (.exception ("Lifestyle shot generation failed: " ++
         httpErrorStr r.status r.reason lifestyleUrl))⟩
    else
      match r.jsonParse with
      | .ok v =>
        ⟨[req], baseLogs ++ ["Status: " ++ toString r.status, "Response: " ++ r.text],
         [], .ok v⟩
      | .error d =>
        ⟨[req], baseLogs ++ ["Status: " ++ toString r.status, "Response: " ++ r.text],
         [], .error (.exception ("Lifestyle shot generation failed: " ++ d))⟩

/-! ## Credential-flow bookkeeping (for the masking claims) -/

/-- The network environment never hands the call a string containing `k`
(so any occurrence of `k` in a log/error must have been put there by the
client code itself). -/
def NetClean (k : String) (net : Net) : Prop :=
  ∀ n, ∀ s ∈ netResultStrings (net n), ¬ occursIn k s

/-- The fixed text fragments of erase_foreground's log lines and error
messages (including both possible retry-log suffixes and the HTTPError
string fragments), plus its endpoint URL and validation messages. -/
def eraseFrags : List String :=
  ["[erase_foreground] Request → ",
   " attempt=",
   " api_key=",
   "[erase_foreground] transient error: ",
   ". Retrying in 1.5s...",
   ". Retrying in 2.2s...",
   "Erase foreground failed (HTTP ",
   "): ",
   "Non-JSON response: ",
   "Erase foreground failed after ",
   " attempts: ",
   " Client Error: ",
   " Server Error: ",
   " for url: ",
   "API key is missing",
   "Either image_data or image_url must be provided",
   eraseUrl]

/-- The fixed text fragments of generate_hd_image's log lines and error
messages (the endpoint URL depends on `model_version` and is hypothesised
separately). -/
def hdFrags : List String :=
  ["[generate_hd_image] Request to ",
   " attempt=",
   " api_key=",
   "[generate_hd_image] transient error: ",
   ". Retrying in 1.5s...",
   ". Retrying in 2.2s...",
   "HD image generation failed (HTTP ",
   "): ",
   "HD image generation returned non-JSON response: ",
   "HD image generation failed after ",
   " attempts: ",
   " Client Error: ",
   " Server Error: ",
   " for url: ",
   "Prompt is required for image generation"]

/-- The message builders of a retry loop keep `k` out of their output as
long as their dynamic inputs avoid `k`. -/
structure CfgClean (k : String) (cfg : LoopCfg) (url : String) : Prop where
  attemptClean : ∀ a, a ≤ RETRY_COUNT → ¬ occursIn k (cfg.attemptLog a)
  retryClean : ∀ d a, 1 ≤ a → a ≤ RETRY_COUNT → ¬ occursIn k d →
    ¬ occursIn k (cfg.retryLog d a)
  httpFailClean : ∀ s t, ¬ occursIn k (toString s) → ¬ occursIn k t →
    ¬ occursIn k (cfg.httpFailMsg s t)
  decodeClean : ∀ d, ¬ occursIn k d → ¬ occursIn k (cfg.decodeFailMsg d)
  exhaustedClean : ∀ d, ¬ occursIn k d → ¬ occursIn k (cfg.exhaustedMsg d)
  httpStrClean : ∀ s r, ¬ occursIn k (toString s) → ¬ occursIn k r →
    ¬ occursIn k (httpErrorStr s r url)

/-! ## Substring toolkit

An occurrence of `k` in `A ++ B` lies in `A`, lies in `B`, or spans the
junction; the spanning case is impossible when a character adjacent to the
junction does not occur in `k`. -/

theorem infix_append_split {α : Type} {k A B : List α} (h : k <:+: A ++ B) :
    k <:+: A ∨ k <:+: B ∨
      ∃ k1 k2, k = k1 ++ k2 ∧ k1 ≠ [] ∧ k2 ≠ [] ∧ k1 <:+ A ∧ k2 <+: B := by
  obtain ⟨s, t, hst⟩ := h
  rw [List.append_assoc] at hst
  rcases List.append_eq_append_iff.mp hst with ⟨a', hA, hb⟩ | ⟨c', _, hd⟩
  · rcases List.append_eq_append_iff.mp hb with ⟨x, hx1, _⟩ | ⟨y, hy1, hy2⟩
    · left
      exact ⟨s, x, by rw [hA, hx1]; simp [List.append_assoc]⟩
    · rcases eq_or_ne a' [] with ha' | ha'
      · right; left
        subst ha'
        simp only [List.nil_append] at hy1
        exact ⟨[], t, by simp [← hy1, hy2]⟩
      · rcases eq_or_ne y [] with hy | hy
        · left
          subst hy
          rw [List.append_nil] at hy1
          exact ⟨s, [], by simp [hA, ← hy1]⟩
        · right; right
          exact ⟨a', y, hy1, ha', hy, ⟨s, hA.symm⟩, ⟨t, hy2.symm⟩⟩
  · right; left
    exact ⟨c', t, by rw [hd]; simp [List.append_assoc]⟩

theorem head?_append_some {α : Type} {c : α} {A : List α} (h : A.head? = some c)
    (B : List α) : (A ++ B).head? = some c := by
  rw [List.head?_append, h]; rfl

theorem getLast?_append_some {α : Type} {c : α} {B : List α} (h : B.getLast? = some c)
    (A : List α) : (A ++ B).getLast? = some c := by
  rw [List.getLast?_append, h]; rfl

theorem mem_of_head?_some {α : Type} {l : List α} {c : α} (h : l.head? = some c) :
    c ∈ l := by
  cases l with
  | nil => simp at h
  | cons a l => simp only [List.head?_cons, Option.some.injEq] at h; simp [h]

theorem mem_of_getLast?_some {α : Type} {l : List α} {c : α} (h : l.getLast? = some c) :
    c ∈ l := by
  induction l with
  | nil => simp at h
  | cons a l ih =>
    cases l with
    | nil => simp only [List.getLast?_singleton, Option.some.injEq] at h; simp [h]
    | cons b m =>
      rw [List.getLast?_cons_cons] at h
      exact List.mem_cons_of_mem a (ih h)

theorem suffix_getLast?_some {α : Type} {k1 A : List α} {c : α} (h : k1 <:+ A)
    (hne : k1 ≠ []) (hA : A.getLast? = some c) : k1.getLast? = some c := by
  obtain ⟨p, hp⟩ := h
  subst hp
  rw [List.getLast?_append] at hA
  cases hk : k1.getLast? with
  | none => exact absurd (List.getLast?_eq_none_iff.mp hk) hne
  | some x => rw [hk] at hA; simpa [hk] using hA

theorem prefix_head?_some {α : Type} {k2 B : List α} {c : α} (h : k2 <+: B)
    (hne : k2 ≠ []) (hB : B.head? = some c) : k2.head? = some c := by
  obtain ⟨r, hr⟩ := h
  subst hr
  rw [List.head?_append] at hB
  cases hk : k2.head? with
  | none => exact absurd (List.head?_eq_none_iff.mp hk) hne
  | some x => rw [hk] at hB; simpa [hk] using hB

theorem noInfix_append_left {k A B : List Char} {c : Char} (hc : c ∉ k)
    (hA : A.getLast? = some c) (h1 : ¬ k <:+: A) (h2 : ¬ k <:+: B) :
    ¬ k <:+: A ++ B := by
  intro h
  rcases infix_append_split h with h' | h' | ⟨k1, k2, hk, hk1, _, hs, _⟩
  · exact h1 h'
  · exact h2 h'
  · have hlast : k1.getLast? = some c := suffix_getLast?_some hs hk1 hA
    exact hc (hk ▸ List.mem_append_left k2 (mem_of_getLast?_some hlast))

theorem noInfix_append_right {k A B : List Char} {c : Char} (hc : c ∉ k)
    (hB : B.head? = some c) (h1 : ¬ k <:+: A) (h2 : ¬ k <:+: B) :
    ¬ k <:+: A ++ B := by
  intro h
  rcases infix_append_split h with h' | h' | ⟨k1, k2, hk, _, hk2, _, hp⟩
  · exact h1 h'
  · exact h2 h'
  · have hhead : k2.head? = some c := prefix_head?_some hp hk2 hB
    exact hc (hk ▸ List.mem_append_right k1 (mem_of_head?_some hhead))

/-! String-level wrappers. -/

theorem str_append_assoc (a b c : String) : (a ++ b) ++ c = a ++ (b ++ c) := by
  apply String.ext; simp [String.data_append]

theorem strGetLast_append {c : Char} (A B : String) (h : B.data.getLast? = some c) :
    (A ++ B).data.getLast? = some c := by
  rw [String.data_append]; exact getLast?_append_some h A.data

theorem noOcc_append_left {k A B : String} {c : Char} (hc : c ∉ k.data)
    (hA : A.data.getLast? = some c) (h1 : ¬ occursIn k A) (h2 : ¬ occursIn k B) :
    ¬ occursIn k (A ++ B) := by
  intro h
  have h' : k.data <:+: A.data ++ B.data := by rw [← String.data_append]; exact h
  exact noInfix_append_left hc hA h1 h2 h'

theorem noOcc_append_right {k A B : String} {c : Char} (hc : c ∉ k.data)
    (hB : B.data.head? = some c) (h1 : ¬ occursIn k A) (h2 : ¬ occursIn k B) :
    ¬ occursIn k (A ++ B) := by
  intro h
  have h' : k.data <:+: A.data ++ B.data := by rw [← String.data_append]; exact h
  exact noInfix_append_right hc hB h1 h2 h'

theorem noOcc_of_short {k s : String} (h : s.data.length < k.data.length) :
    ¬ occursIn k s := fun hin => absurd (List.IsInfix.length_le hin) (by omega)

theorem occursIn_suffix (A B : String) : occursIn B (A ++ B) := by
  show B.data <:+: (A ++ B).data
  rw [String.data_append]
  exact ⟨A.data, [], by simp⟩

theorem occursIn_mid (A B C : String) : occursIn B ((A ++ B) ++ C) := by
  show B.data <:+: ((A ++ B) ++ C).data
  rw [String.data_append, String.data_append]
  exact ⟨A.data, C.data, by simp⟩

/-! ## Executor lemmas -/

theorem runLoop_zero (cfg : LoopCfg) (req : Request) (net : Net) (a : Nat)
    (l : Option String) :
    runLoop cfg req net 0 a l =
      ⟨[], [], [], .error (.exception (cfg.exhaustedMsg (strOfLast l)))⟩ := rfl

theorem runLoop_step_success {cfg : LoopCfg} {req : Request} {net : Net}
    {attempt : Nat} {v : String} (fuel : Nat) (lastExc : Option String)
    (h : classify req.url (net attempt) = .successC v) :
    runLoop cfg req net (fuel + 1) attempt lastExc =
      ⟨[req], [cfg.attemptLog attempt], [], .ok v⟩ := by
  simp [runLoop, h]

theorem runLoop_step_terminal {cfg : LoopCfg} {req : Request} {net : Net}
    {attempt : Nat} {s : Nat} {t : String} (fuel : Nat) (lastExc : Option String)
    (h : classify req.url (net attempt) = .terminalC s t) :
    runLoop cfg req net (fuel + 1) attempt lastExc =
      ⟨[req], [cfg.attemptLog attempt], [],
       .error (.exception (cfg.httpFailMsg s t))⟩ := by
  simp [runLoop, h]

theorem runLoop_step_decode {cfg : LoopCfg} {req : Request} {net : Net}
    {attempt : Nat} {d : String} (fuel : Nat) (lastExc : Option String)
    (h : classify req.url (net attempt) = .decodeC d) :
    runLoop cfg req net (fuel + 1) attempt lastExc =
      ⟨[req], [cfg.attemptLog attempt], [],
       .error (.exception (cfg.decodeFailMsg d))⟩ := by
  simp [runLoop, h]

theorem runLoop_step_transient {cfg : LoopCfg} {req : Request} {net : Net}
    {attempt : Nat} {d : String} (fuel : Nat) (lastExc : Option String)
    (h : classify req.url (net attempt) = .transientC d)
    (hlt : attempt + 1 ≤ RETRY_COUNT) :
    runLoop cfg req net (fuel + 1) attempt lastExc =
      ⟨req :: (runLoop cfg req net fuel (attempt + 1) (some d)).reqs,
       cfg.attemptLog attempt :: cfg.retryLog d (attempt + 1) ::
         (runLoop cfg req net fuel (attempt + 1) (some d)).logs,
       BACKOFF_INIT * RETRY_BACKOFF ^ (attempt + 1) ::
         (runLoop cfg req net fuel (attempt + 1) (some d)).sleeps,
       (runLoop cfg req net fuel (attempt + 1) (some d)).result⟩ := by
  simp [runLoop, h, hlt]

theorem runLoop_step_transient_last {cfg : LoopCfg} {req : Request} {net : Net}
    {attempt : Nat} {d : String} (fuel : Nat) (lastExc : Option String)
    (h : classify req.url (net attempt) = .transientC d)
    (hge : ¬ attempt + 1 ≤ RETRY_COUNT) :
    runLoop cfg req net (fuel + 1) attempt lastExc =
      ⟨req :: (runLoop cfg req net fuel (attempt + 1) (some d)).reqs,
       cfg.attemptLog attempt :: (runLoop cfg req net fuel (attempt + 1) (some d)).logs,
       (runLoop cfg req net fuel (attempt + 1) (some d)).sleeps,
       (runLoop cfg req net fuel (attempt + 1) (some d)).result⟩ := by
  simp [runLoop, h, hge]

theorem runLoop_req_mem {cfg : LoopCfg} {req : Request} {net : Net} :
    ∀ fuel attempt lastExc r,
      r ∈ (runLoop cfg req net fuel attempt lastExc).reqs → r = req := by
  intro fuel
  induction fuel with
  | zero => intro attempt lastExc r hr; simp [runLoop] at hr
  | succ fuel ih =>
    intro attempt lastExc r hr
    cases hcl : classify req.url (net attempt) with
    | successC v => rw [runLoop_step_success fuel lastExc hcl] at hr; simpa using hr
    | terminalC s t => rw [runLoop_step_terminal fuel lastExc hcl] at hr; simpa using hr
    | decodeC d => rw [runLoop_step_decode fuel lastExc hcl] at hr; simpa using hr
    | transientC d =>
      by_cases hlt : attempt + 1 ≤ RETRY_COUNT
      · rw [runLoop_step_transient fuel lastExc hcl hlt] at hr
        rcases List.mem_cons.mp hr with h | h
        · exact h
        · exact ih (attempt + 1) (some d) r h
      · rw [runLoop_step_transient_last fuel lastExc hcl hlt] at hr
        rcases List.mem_cons.mp hr with h | h
        · exact h
        · exact ih (attempt + 1) (some d) r h

theorem runLoop_reqs_nonempty {cfg : LoopCfg} {req : Request} {net : Net}
    (fuel attempt : Nat) (lastExc : Option String) :
    1 ≤ (runLoop cfg req net (fuel + 1) attempt lastExc).reqs.length := by
  cases hcl : classify req.url (net attempt) with
  | successC v => rw [runLoop_step_success fuel lastExc hcl]; simp
  | terminalC s t => rw [runLoop_step_terminal fuel lastExc hcl]; simp
  | decodeC d => rw [runLoop_step_decode fuel lastExc hcl]; simp
  | transientC d =>
    by_cases hlt : attempt + 1 ≤ RETRY_COUNT
    · rw [runLoop_step_transient fuel lastExc hcl hlt]; simp
    · rw [runLoop_step_transient_last fuel lastExc hcl hlt]; simp

/-- The sleeps a partial run records: consecutive powers
`RETRY_BACKOFF ^ (attempt+1), RETRY_BACKOFF ^ (attempt+2), ...`. -/
theorem runLoop_sleeps_shape {cfg : LoopCfg} {req : Request} {net : Net} :
    ∀ fuel attempt lastExc, fuel + attempt ≤ RETRY_COUNT + 1 →
      ∃ m, (runLoop cfg req net fuel attempt lastExc).sleeps =
        (List.range m).map (fun j => BACKOFF_INIT * RETRY_BACKOFF ^ (attempt + 1 + j)) := by
  intro fuel
  induction fuel with
  | zero => intro attempt lastExc _; exact ⟨0, by simp [runLoop]⟩
  | succ fuel ih =>
    intro attempt lastExc hle
    cases hcl : classify req.url (net attempt) with
    | successC v => exact ⟨0, by rw [runLoop_step_success fuel lastExc hcl]; simp⟩
    | terminalC s t => exact ⟨0, by rw [runLoop_step_terminal fuel lastExc hcl]; simp⟩
    | decodeC d => exact ⟨0, by rw [runLoop_step_decode fuel lastExc hcl]; simp⟩
    | transientC d =>
      by_cases hlt : attempt + 1 ≤ RETRY_COUNT
      · obtain ⟨m, hm⟩ := ih (attempt + 1) (some d) (by omega)
        refine ⟨m + 1, ?_⟩
        rw [runLoop_step_transient fuel lastExc hcl hlt]
        simp only [hm, List.range_succ_eq_map, List.map_cons, List.map_map]
        refine List.cons_eq_cons.mpr ⟨by norm_num, ?_⟩
        apply List.map_congr_left
        intro j _
        simp only [Function.comp_apply]
        have he : attempt + 1 + 1 + j = attempt + 1 + Nat.succ j := by omega
        rw [he]
      · have hf : fuel = 0 := by
          simp only [RETRY_COUNT] at hlt hle; omega
        subst hf
        refine ⟨0, ?_⟩
        rw [runLoop_step_transient_last 0 lastExc hcl hlt]
        simp [runLoop]

/-! Classification source tracking. -/

theorem classify_terminal_strings {url : String} {nr : NetResult} {s : Nat} {t : String}
    (h : classify url nr = .terminalC s t) :
    toString s ∈ netResultStrings nr ∧ t ∈ netResultStrings nr := by
  cases nr with
  | transportError d => simp [classify] at h
  | response r =>
    simp only [classify] at h
    split at h
    · split at h
      · rw [AttemptClass.terminalC.injEq] at h
        refine ⟨?_, ?_⟩ <;> simp [netResultStrings, h.1, h.2]
      · simp at h
    · split at h <;> simp at h

theorem classify_decode_string {url : String} {nr : NetResult} {d : String}
    (h : classify url nr = .decodeC d) : d ∈ netResultStrings nr := by
  cases nr with
  | transportError e => simp [classify] at h
  | response r =>
    simp only [classify] at h
    split at h
    · split at h <;> simp at h
    · cases hj : r.jsonParse with
      | ok v => rw [hj] at h; simp at h
      | error e =>
        rw [hj] at h
        rw [AttemptClass.decodeC.injEq] at h
        simp [netResultStrings, hj, h]

theorem classify_transient_source {url : String} {nr : NetResult} {d : String}
    (h : classify url nr = .transientC d) :
    d ∈ netResultStrings nr ∨
      ∃ st re, toString st ∈ netResultStrings nr ∧ re ∈ netResultStrings nr ∧
        d = httpErrorStr st re url := by
  cases nr with
  | transportError e =>
    left
    simp only [classify, AttemptClass.transientC.injEq] at h
    simp [netResultStrings, h]
  | response r =>
    simp only [classify] at h
    split at h
    · split at h
      · simp at h
      · right
        rw [AttemptClass.transientC.injEq] at h
        exact ⟨r.status, r.reason, by simp [netResultStrings], by simp [netResultStrings], h.symm⟩
    · cases hj : r.jsonParse with
      | ok v => rw [hj] at h; simp at h
      | error e => rw [hj] at h; simp at h

/-- A credential `k` kept out of the network strings and the message
builders never reaches a log line or a raised error message. -/
theorem runLoop_clean {k : String} {cfg : LoopCfg} {req : Request} {net : Net}
    (hcfg : CfgClean k cfg req.url) (hnet : NetClean k net) :
    ∀ fuel attempt lastExc, fuel + attempt = RETRY_COUNT + 1 →
      (∀ d, lastExc = some d → ¬ occursIn k d) →
      (lastExc = none → fuel ≠ 0) →
      (∀ line ∈ (runLoop cfg req net fuel attempt lastExc).logs, ¬ occursIn k line) ∧
      (∀ e, (runLoop cfg req net fuel attempt lastExc).result = .error e →
        ¬ occursIn k e.msg) := by
  intro fuel
  induction fuel with
  | zero =>
    intro attempt lastExc _ hlast hnone
    cases lastExc with
    | none => exact absurd (hnone rfl) (by simp)
    | some d =>
      refine ⟨by simp [runLoop], ?_⟩
      intro e he
      rw [runLoop_zero, Except.error.injEq] at he
      rw [← he]
      exact hcfg.exhaustedClean d (hlast d rfl)
  | succ fuel ih =>
    intro attempt lastExc hinv hlast _
    have hattempt : attempt ≤ RETRY_COUNT := by
      simp only [RETRY_COUNT] at hinv ⊢; omega
    have htransClean : ∀ d, classify req.url (net attempt) = .transientC d →
        ¬ occursIn k d := by
      intro d hcl
      rcases classify_transient_source hcl with hmem | ⟨st, re, hst, hre, hd⟩
      · exact hnet attempt d hmem
      · rw [hd]
        exact hcfg.httpStrClean st re (hnet attempt _ hst) (hnet attempt _ hre)
    cases hcl : classify req.url (net attempt) with
    | successC v =>
      rw [runLoop_step_success fuel lastExc hcl]
      refine ⟨?_, by intro e he; simp at he⟩
      intro line hline
      rcases List.mem_singleton.mp hline with h
      rw [h]
      exact hcfg.attemptClean attempt hattempt
    | terminalC s t =>
      rw [runLoop_step_terminal fuel lastExc hcl]
      obtain ⟨hs, ht⟩ := classify_terminal_strings hcl
      refine ⟨?_, ?_⟩
      · intro line hline
        rcases List.mem_singleton.mp hline with h
        rw [h]
        exact hcfg.attemptClean attempt hattempt
      · intro e he
        simp only [Except.error.injEq] at he
        rw [← he]
        exact hcfg.httpFailClean s t (hnet attempt _ hs) (hnet attempt _ ht)
    | decodeC d =>
      rw [runLoop_step_decode fuel lastExc hcl]
      have hd := classify_decode_string hcl
      refine ⟨?_, ?_⟩
      · intro line hline
        rcases List.mem_singleton.mp hline with h
        rw [h]
        exact hcfg.attemptClean attempt hattempt
      · intro e he
        simp only [Except.error.injEq] at he
        rw [← he]
        exact hcfg.decodeClean d (hnet attempt _ hd)
    | transientC d =>
      have hdclean : ¬ occursIn k d := htransClean d hcl
      have hrest := ih (attempt + 1) (some d) (by omega)
        (by intro d' hd'; rw [Option.some.injEq] at hd'; rw [← hd']; exact hdclean)
        (by intro hc; cases hc)
      by_cases hlt : attempt + 1 ≤ RETRY_COUNT
      · rw [runLoop_step_transient fuel lastExc hcl hlt]
        refine ⟨?_, hrest.2⟩
        intro line hline
        rcases List.mem_cons.mp hline with h | hline
        · rw [h]; exact hcfg.attemptClean attempt hattempt
        rcases List.mem_cons.mp hline with h | hline
        · rw [h]
          exact hcfg.retryClean d (attempt + 1) (by omega) hlt hdclean
        · exact hrest.1 line hline
      · rw [runLoop_step_transient_last fuel lastExc hcl hlt]
        refine ⟨?_, hrest.2⟩
        intro line hline
        rcases List.mem_cons.mp hline with h | hline
        · rw [h]; exact hcfg.attemptClean attempt hattempt
        · exact hrest.1 line hline

/-! ## Concrete evaluation facts used by the masking proofs -/

theorem fmt1f_sleep_one : fmt1f (BACKOFF_INIT * RETRY_BACKOFF ^ 1) = "1.5" := by
  have h : BACKOFF_INIT * RETRY_BACKOFF ^ 1 = 3/2 := by
    norm_num [BACKOFF_INIT, RETRY_BACKOFF]
  rw [h]
  unfold fmt1f
  norm_num
  decide

theorem fmt1f_sleep_two : fmt1f (BACKOFF_INIT * RETRY_BACKOFF ^ 2) = "2.2" := by
  have h : BACKOFF_INIT * RETRY_BACKOFF ^ 2 = 9/4 := by
    norm_num [BACKOFF_INIT, RETRY_BACKOFF]
  rw [h]
  unfold fmt1f
  norm_num
  decide

theorem attempts_str : toString (RETRY_COUNT + 1) = "3" := by decide

theorem attempt_str_noOcc {k : String} (hlen : 2 ≤ k.data.length) :
    ∀ a, a ≤ RETRY_COUNT → ¬ occursIn k (toString a) := by
  intro a ha
  have h2 : RETRY_COUNT = 2 := rfl
  rw [h2] at ha
  interval_cases a
  · exact noOcc_of_short (lt_of_lt_of_le (by decide) hlen)
  · exact noOcc_of_short (lt_of_lt_of_le (by decide) hlen)
  · exact noOcc_of_short (lt_of_lt_of_le (by decide) hlen)

/-! ## The message builders of the two retrying functions never emit the
raw credential -/

theorem eraseCfgClean {k : String} (hlen : 2 ≤ k.data.length)
    (hsp : ' ' ∉ k.data) (hdot : '.' ∉ k.data) (heq : '=' ∉ k.data)
    (hpar : ')' ∉ k.data)
    (hstat : ∀ s ∈ eraseFrags, ¬ occursIn k s)
    (hmask : ¬ occursIn k (_mask_key (some k))) :
    CfgClean k (eraseCfg k) eraseUrl := by
  constructor
  · -- attemptClean
    intro a ha
    show ¬ occursIn k ("[erase_foreground] Request → " ++ eraseUrl ++ " attempt=" ++
      toString a ++ " api_key=" ++ _mask_key (some k))
    apply noOcc_append_left heq (strGetLast_append _ _ (by decide)) ?_ hmask
    apply noOcc_append_right hsp (by decide) ?_ (hstat _ (by decide))
    apply noOcc_append_left heq (strGetLast_append _ _ (by decide)) ?_
      (attempt_str_noOcc hlen a ha)
    apply noOcc_append_right hsp (by decide) ?_ (hstat _ (by decide))
    exact noOcc_append_left hsp (by decide) (hstat _ (by decide)) (hstat _ (by decide))
  · -- retryClean
    intro d a h1 h2 hd
    have hrc : RETRY_COUNT = 2 := rfl
    rw [hrc] at h2
    show ¬ occursIn k ("[erase_foreground] transient error: " ++ d ++ ". Retrying in " ++
      fmt1f (BACKOFF_INIT * RETRY_BACKOFF ^ a) ++ "s...")
    interval_cases a
    · rw [fmt1f_sleep_one,
        str_append_assoc ("[erase_foreground] transient error: " ++ d) ". Retrying in " "1.5",
        str_append_assoc ("[erase_foreground] transient error: " ++ d) _ "s...",
        (by decide : ((". Retrying in " ++ "1.5") ++ "s..." : String) = ". Retrying in 1.5s...")]
      apply noOcc_append_right hdot (by decide) ?_ (hstat _ (by decide))
      exact noOcc_append_left hsp (by decide) (hstat _ (by decide)) hd
    · rw [fmt1f_sleep_two,
        str_append_assoc ("[erase_foreground] transient error: " ++ d) ". Retrying in " "2.2",
        str_append_assoc ("[erase_foreground] transient error: " ++ d) _ "s...",
        (by decide : ((". Retrying in " ++ "2.2") ++ "s..." : String) = ". Retrying in 2.2s...")]
      apply noOcc_append_right hdot (by decide) ?_ (hstat _ (by decide))
      exact noOcc_append_left hsp (by decide) (hstat _ (by decide)) hd
  · -- httpFailClean
    intro s t hs ht
    show ¬ occursIn k ("Erase foreground failed (HTTP " ++ toString s ++ "): " ++ t)
    apply noOcc_append_left hsp (strGetLast_append _ _ (by decide)) ?_ ht
    apply noOcc_append_right hpar (by decide) ?_ (hstat _ (by decide))
    exact noOcc_append_left hsp (by decide) (hstat _ (by decide)) hs
  · -- decodeClean
    intro d hd
    show ¬ occursIn k ("Non-JSON response: " ++ d)
    exact noOcc_append_left hsp (by decide) (hstat _ (by decide)) hd
  · -- exhaustedClean
    intro d hd
    show ¬ occursIn k ("Erase foreground failed after " ++ toString (RETRY_COUNT + 1) ++
      " attempts: " ++ d)
    rw [attempts_str]
    apply noOcc_append_left hsp (strGetLast_append _ _ (by decide)) ?_ hd
    apply noOcc_append_right hsp (by decide) ?_ (hstat _ (by decide))
    apply noOcc_append_left hsp (by decide) (hstat _ (by decide))
      (noOcc_of_short (lt_of_lt_of_le (by decide) hlen))
  · -- httpStrClean
    intro s r hs hr
    show ¬ occursIn k (toString s ++
      (if s < 500 then " Client Error: " else " Server Error: ") ++ r ++ " for url: " ++ eraseUrl)
    by_cases h5 : s < 500
    · rw [if_pos h5]
      apply noOcc_append_left hsp (strGetLast_append _ _ (by decide)) ?_
        (hstat _ (by decide))
      apply noOcc_append_right hsp (by decide) ?_ (hstat _ (by decide))
      apply noOcc_append_left hsp (strGetLast_append _ _ (by decide)) ?_ hr
      exact noOcc_append_right hsp (by decide) hs (hstat _ (by decide))
    · rw [if_neg h5]
      apply noOcc_append_left hsp (strGetLast_append _ _ (by decide)) ?_
        (hstat _ (by decide))
      apply noOcc_append_right hsp (by decide) ?_ (hstat _ (by decide))
      apply noOcc_append_left hsp (strGetLast_append _ _ (by decide)) ?_ hr
      exact noOcc_append_right hsp (by decide) hs (hstat _ (by decide))

theorem hdCfgClean {k mv : String} (hlen : 2 ≤ k.data.length)
    (hsp : ' ' ∉ k.data) (hdot : '.' ∉ k.data) (heq : '=' ∉ k.data)
    (hpar : ')' ∉ k.data)
    (hstat : ∀ s ∈ hdFrags, ¬ occursIn k s)
    (hurl : ¬ occursIn k (hdUrl mv))
    (hmask : ¬ occursIn k (_mask_key (some k))) :
    CfgClean k (hdCfg k mv) (hdUrl mv) := by
  constructor
  · -- attemptClean
    intro a ha
    show ¬ occursIn k ("[generate_hd_image] Request to " ++ hdUrl mv ++ " attempt=" ++
      toString a ++ " api_key=" ++ _mask_key (some k))
    apply noOcc_append_left heq (strGetLast_append _ _ (by decide)) ?_ hmask
    apply noOcc_append_right hsp (by decide) ?_ (hstat _ (by decide))
    apply noOcc_append_left heq (strGetLast_append _ _ (by decide)) ?_
      (attempt_str_noOcc hlen a ha)
    apply noOcc_append_right hsp (by decide) ?_ (hstat _ (by decide))
    exact noOcc_append_left hsp (by decide) (hstat _ (by decide)) hurl
  · -- retryClean
    intro d a h1 h2 hd
    have hrc : RETRY_COUNT = 2 := rfl
    rw [hrc] at h2
    show ¬ occursIn k ("[generate_hd_image] transient error: " ++ d ++ ". Retrying in " ++
      fmt1f (BACKOFF_INIT * RETRY_BACKOFF ^ a) ++ "s...")
    interval_cases a
    · rw [fmt1f_sleep_one,
        str_append_assoc ("[generate_hd_image] transient error: " ++ d) ". Retrying in " "1.5",
        str_append_assoc ("[generate_hd_image] transient error: " ++ d) _ "s...",
        (by decide : ((". Retrying in " ++ "1.5") ++ "s..." : String) = ". Retrying in 1.5s...")]
      apply noOcc_append_right hdot (by decide) ?_ (hstat _ (by decide))
      exact noOcc_append_left hsp (by decide) (hstat _ (by decide)) hd
    · rw [fmt1f_sleep_two,
        str_append_assoc ("[generate_hd_image] transient error: " ++ d) ". Retrying in " "2.2",
        str_append_assoc ("[generate_hd_image] transient error: " ++ d) _ "s...",
        (by decide : ((". Retrying in " ++ "2.2") ++ "s..." : String) = ". Retrying in 2.2s...")]
      apply noOcc_append_right hdot (by decide) ?_ (hstat _ (by decide))
      exact noOcc_append_left hsp (by decide) (hstat _ (by decide)) hd
  · -- httpFailClean
    intro s t hs ht
    show ¬ occursIn k ("HD image generation failed (HTTP " ++ toString s ++ "): " ++ t)
    apply noOcc_append_left hsp (strGetLast_append _ _ (by decide)) ?_ ht
    apply noOcc_append_right hpar (by decide) ?_ (hstat _ (by decide))
    exact noOcc_append_left hsp (by decide) (hstat _ (by decide)) hs
  · -- decodeClean
    intro d hd
    show ¬ occursIn k ("HD image generation returned non-JSON response: " ++ d)
    exact noOcc_append_left hsp (by decide) (hstat _ (by decide)) hd
  · -- exhaustedClean
    intro d hd
    show ¬ occursIn k ("HD image generation failed after " ++ toString (RETRY_COUNT + 1) ++
      " attempts: " ++ d)
    rw [attempts_str]
    apply noOcc_append_left hsp (strGetLast_append _ _ (by decide)) ?_ hd
    apply noOcc_append_right hsp (by decide) ?_ (hstat _ (by decide))
    apply noOcc_append_left hsp (by decide) (hstat _ (by decide))
      (noOcc_of_short (lt_of_lt_of_le (by decide) hlen))
  · -- httpStrClean
    intro s r hs hr
    show ¬ occursIn k (toString s ++
      (if s < 500 then " Client Error: " else " Server Error: ") ++ r ++ " for url: " ++ hdUrl mv)
    by_cases h5 : s < 500
    · rw [if_pos h5]
      apply noOcc_append_left hsp (strGetLast_append _ _ (by decide)) ?_ hurl
      apply noOcc_append_right hsp (by decide) ?_ (hstat _ (by decide))
      apply noOcc_append_left hsp (strGetLast_append _ _ (by decide)) ?_ hr
      exact noOcc_append_right hsp (by decide) hs (hstat _ (by decide))
    · rw [if_neg h5]
      apply noOcc_append_left hsp (strGetLast_append _ _ (by decide)) ?_ hurl
      apply noOcc_append_right hsp (by decide) ?_ (hstat _ (by decide))
      apply noOcc_append_left hsp (strGetLast_append _ _ (by decide)) ?_ hr
      exact noOcc_append_right hsp (by decide) hs (hstat _ (by decide))

/-! ## Misc helpers for the claim theorems -/

theorem occursIn_prefix_self (B X : String) : occursIn B (B ++ X) := by
  show B.data <:+: (B ++ X).data
  rw [String.data_append]
  exact ⟨[], X.data, by simp⟩

theorem occursIn_extend_right {B A : String} (h : occursIn B A) (D : String) :
    occursIn B (A ++ D) := by
  refine List.IsInfix.trans h ?_
  rw [String.data_append]
  exact (List.prefix_append A.data D.data).isInfix

theorem occursIn_extend_left {B A : String} (h : occursIn B A) (D : String) :
    occursIn B (D ++ A) := by
  refine List.IsInfix.trans h ?_
  rw [String.data_append]
  exact (List.suffix_append D.data A.data).isInfix

theorem lookup_append_of_keys_ne {α β : Type} [BEq α] {k : α} {l1 l2 : List (α × β)}
    (h : ∀ p ∈ l1, (k == p.1) = false) : (l1 ++ l2).lookup k = l2.lookup k := by
  induction l1 with
  | nil => simp
  | cons p l ih =>
    simp only [List.cons_append, List.lookup]
    rw [h p (by simp)]
    exact ih (fun q hq => h q (by simp [hq]))

/-- The three possible branches of `erase_foreground`. -/
theorem erase_trace_cases (a : EraseArgs) (net : Net) :
    (a.api_key = "" ∧
      erase_foreground a net = emptyTrace (.valueError "API key is missing")) ∨
    (a.api_key ≠ "" ∧ (truthyOptBytes a.image_data || truthyOptStr a.image_url) = false ∧
      erase_foreground a net =
        emptyTrace (.valueError "Either image_data or image_url must be provided")) ∨
    (a.api_key ≠ "" ∧ (truthyOptBytes a.image_data || truthyOptStr a.image_url) = true ∧
      erase_foreground a net =
        runLoop (eraseCfg a.api_key)
          ⟨eraseUrl, erase_headers a.api_key, erase_payload a, some DEFAULT_TIMEOUT⟩
          net (RETRY_COUNT + 1) 0 none) := by
  by_cases h1 : a.api_key = ""
  · left
    exact ⟨h1, by rw [erase_foreground, if_pos h1]⟩
  · by_cases h2 : (truthyOptBytes a.image_data || truthyOptStr a.image_url) = true
    · right; right
      refine ⟨h1, h2, ?_⟩
      rw [erase_foreground, if_neg h1, if_neg (by simp [h2])]
    · right; left
      refine ⟨h1, by simpa using h2, ?_⟩
      rw [erase_foreground, if_neg h1, if_pos (by simpa using h2)]

/-- The two possible branches of `generate_hd_image`. -/
theorem hd_trace_cases (a : HdArgs) (net : Net) :
    (a.prompt = "" ∧
      generate_hd_image a net =
        emptyTrace (.valueError "Prompt is required for image generation")) ∨
    (a.prompt ≠ "" ∧
      generate_hd_image a net =
        runLoop (hdCfg a.api_key a.model_version)
          ⟨hdUrl a.model_version, hd_headers a.api_key, hd_payload a, some DEFAULT_TIMEOUT⟩
          net (RETRY_COUNT + 1) 0 none) := by
  by_cases h1 : a.prompt = ""
  · left
    exact ⟨h1, by rw [generate_hd_image, if_pos h1]⟩
  · right
    exact ⟨h1, by rw [generate_hd_image, if_neg h1]⟩

/-- `lifestyle_shot_by_text` always issues exactly its one request. -/
theorem lifestyle_reqs (a : LifestyleArgs) (net : Net) :
    (lifestyle_shot_by_text a net).reqs =
      [⟨lifestyleUrl, lifestyle_headers a.api_key, lifestyle_payload a, none⟩] := by
  rw [lifestyle_shot_by_text]
  cases hnet : net 0 with
  | transportError d => rfl
  | response r =>
    by_cases hs : 400 ≤ r.status ∧ r.status < 600
    · simp only [if_pos hs]
    · simp only [if_neg hs]
      cases r.jsonParse <;> rfl

/-- `lifestyle_shot_by_text` on an HTTP-error response. -/
theorem lifestyle_http_error (a : LifestyleArgs) (net : Net) (r : HttpResponse)
    (hnet : net 0 = .response r) (hs : 400 ≤ r.status ∧ r.status < 600) :
    lifestyle_shot_by_text a net =
      ⟨[⟨lifestyleUrl, lifestyle_headers a.api_key, lifestyle_payload a, none⟩],
       ["Sending Request → lifestyle_shot_by_text",
        "Headers: " ++ headersRepr (lifestyle_headers a.api_key),
        "Payload: " ++ payloadRepr (lifestyle_payload a)], [],
       .error (.exception ("Lifestyle shot generation failed: " ++
         httpErrorStr r.status r.reason lifestyleUrl))⟩ := by
  rw [lifestyle_shot_by_text, hnet]
  simp only [if_pos hs]

/-- `lifestyle_shot_by_text` on a non-error response whose body is not JSON. -/
theorem lifestyle_decode_error (a : LifestyleArgs) (net : Net) (r : HttpResponse)
    (d : String) (hnet : net 0 = .response r) (hs : ¬ (400 ≤ r.status ∧ r.status < 600))
    (hj : r.jsonParse = .error d) :
    lifestyle_shot_by_text a net =
      ⟨[⟨lifestyleUrl, lifestyle_headers a.api_key, lifestyle_payload a, none⟩],
       ["Sending Request → lifestyle_shot_by_text",
        "Headers: " ++ headersRepr (lifestyle_headers a.api_key),
        "Payload: " ++ payloadRepr (lifestyle_payload a)] ++
         ["Status: " ++ toString r.status, "Response: " ++ r.text], [],
       .error (.exception ("Lifestyle shot generation failed: " ++ d))⟩ := by
  rw [lifestyle_shot_by_text, hnet]
  simp only [if_neg hs, hj]

theorem classify_terminal_of {url : String} {r : HttpResponse}
    (h4 : 400 ≤ r.status) (h5 : r.status < 500) (h429 : r.status ≠ 429) :
    classify url (.response r) = .terminalC r.status r.text := by
  rw [classify, if_pos ⟨h4, by omega⟩, if_pos ⟨by omega, h4, h5, h429⟩]

theorem classify_decode_of {url : String} {r : HttpResponse} {d : String}
    (hst : ¬ (400 ≤ r.status ∧ r.status < 600)) (hj : r.jsonParse = .error d) :
    classify url (.response r) = .decodeC d := by
  rw [classify, if_neg hst, hj]

theorem classify_transient_5xx {url : String} {r : HttpResponse}
    (h5 : 500 ≤ r.status) (h6 : r.status < 600) :
    classify url (.response r) =
      .transientC (httpErrorStr r.status r.reason url) := by
  rw [classify, if_pos ⟨by omega, h6⟩, if_neg (by omega)]

theorem classify_transient_429 {url : String} {r : HttpResponse}
    (h : r.status = 429) :
    classify url (.response r) =
      .transientC (httpErrorStr r.status r.reason url) := by
  rw [classify, if_pos (by omega), if_neg (by omega)]

/-- Values and strict growth of a sleep schedule of the shared shape. -/
theorem sleeps_shape_get {m i : Nat} {a : Nat}
    (h : i < ((List.range m).map
      (fun j => BACKOFF_INIT * RETRY_BACKOFF ^ (a + 1 + j))).length) :
    ((List.range m).map (fun j => BACKOFF_INIT * RETRY_BACKOFF ^ (a + 1 + j))).get ⟨i, h⟩ =
      BACKOFF_INIT * RETRY_BACKOFF ^ (a + 1 + i) := by
  simp

theorem sleeps_shape_getElem {m a i : Nat}
    (h : i < ((List.range m).map
      (fun j => BACKOFF_INIT * RETRY_BACKOFF ^ (a + 1 + j))).length) :
    ((List.range m).map (fun j => BACKOFF_INIT * RETRY_BACKOFF ^ (a + 1 + j)))[i]? =
      some (BACKOFF_INIT * RETRY_BACKOFF ^ (a + 1 + i)) := by
  rw [List.getElem?_eq_getElem h]
  simp

theorem lifestyle_sleeps (a : LifestyleArgs) (net : Net) :
    (lifestyle_shot_by_text a net).sleeps = [] := by
  rw [lifestyle_shot_by_text]
  cases hnet : net 0 with
  | transportError d => rfl
  | response r =>
    by_cases hs : 400 ≤ r.status ∧ r.status < 600
    · simp only [if_pos hs]
    · simp only [if_neg hs]
      cases r.jsonParse <;> rfl

theorem sleeps_shape_chain {m a : Nat} :
    List.Chain' (· < ·)
      ((List.range m).map (fun j => BACKOFF_INIT * RETRY_BACKOFF ^ (a + 1 + j))) := by
  rw [List.chain'_iff_get]
  intro i h
  simp only [List.get_eq_getElem, List.getElem_map, List.getElem_range]
  have hb : BACKOFF_INIT = 1 := rfl
  rw [hb, one_mul, one_mul]
  have hrb : RETRY_BACKOFF = 3/2 := rfl
  exact pow_lt_pow_right₀ (by rw [hrb]; norm_num) (by omega)

/-! ## Claim theorems -/

/-- C10: for a non-empty credential, `_mask_key` is the first 4 characters,
an ellipsis, and the last 4 characters (`"<no-key>"` for a missing or empty
key); and for every non-empty credential of length at most 4 the masked
output contains the entire credential as a substring, so masking hides
nothing for such short keys. -/
theorem C10_mask_key_spec :
    (∀ k : String, k ≠ "" →
      (_mask_key (some k)).data =
        k.data.take 4 ++ "...".data ++ k.data.drop (k.data.length - 4)) ∧
    _mask_key none = "<no-key>" ∧ _mask_key (some "") = "<no-key>" ∧
    (∀ k : String, k ≠ "" → k.data.length ≤ 4 →
      occursIn k (_mask_key (some k))) := by
  refine ⟨?_, rfl, rfl, ?_⟩
  · intro k hk
    simp only [_mask_key, if_neg hk]
    simp [String.data_append]
  · intro k hk hle
    have hd : (_mask_key (some k)).data =
        k.data.take 4 ++ "...".data ++ k.data.drop (k.data.length - 4) := by
      simp only [_mask_key, if_neg hk]
      simp [String.data_append]
    show k.data <:+: (_mask_key (some k)).data
    rw [hd, List.take_of_length_le hle]
    exact ((List.prefix_append k.data _).trans (List.prefix_append _ _)).isInfix

/-- Witness for C10 at the concrete short key "abc". -/
theorem C10_witness :
    _mask_key (some "abc") = "abc...abc" ∧ occursIn "abc" (_mask_key (some "abc")) :=
  ⟨by decide, C10_mask_key_spec.2.2.2 "abc" (by decide) (by decide)⟩

/-- C8: in every call of the two retrying functions, the i-th recorded
sleep is exactly `backoff * RETRY_BACKOFF ^ attempt` with `backoff = 1.0`
and `attempt = i + 1` (the incremented attempt counter), and the sleeps
within one call strictly increase; `lifestyle_shot_by_text` never sleeps. -/
theorem C8_backoff_schedule (aE : EraseArgs) (aH : HdArgs) (aL : LifestyleArgs)
    (netE netH netL : Net) :
    (∀ i, i < (erase_foreground aE netE).sleeps.length →
      (erase_foreground aE netE).sleeps[i]? =
        some (BACKOFF_INIT * RETRY_BACKOFF ^ (i + 1))) ∧
    List.Chain' (· < ·) (erase_foreground aE netE).sleeps ∧
    (∀ i, i < (generate_hd_image aH netH).sleeps.length →
      (generate_hd_image aH netH).sleeps[i]? =
        some (BACKOFF_INIT * RETRY_BACKOFF ^ (i + 1))) ∧
    List.Chain' (· < ·) (generate_hd_image aH netH).sleeps ∧
    (lifestyle_shot_by_text aL netL).sleeps = [] := by
  have hE : (∀ i, i < (erase_foreground aE netE).sleeps.length →
      (erase_foreground aE netE).sleeps[i]? =
        some (BACKOFF_INIT * RETRY_BACKOFF ^ (i + 1))) ∧
      List.Chain' (· < ·) (erase_foreground aE netE).sleeps := by
    rcases erase_trace_cases aE netE with ⟨_, he⟩ | ⟨_, _, he⟩ | ⟨_, _, he⟩ <;> rw [he]
    · exact ⟨fun i hi => by simp [emptyTrace] at hi, by simp [emptyTrace]⟩
    · exact ⟨fun i hi => by simp [emptyTrace] at hi, by simp [emptyTrace]⟩
    · obtain ⟨m, hm⟩ := runLoop_sleeps_shape (RETRY_COUNT + 1) 0 none (by omega)
      rw [hm]
      refine ⟨fun i hi => ?_, sleeps_shape_chain⟩
      rw [sleeps_shape_getElem hi]
      have hn : 0 + 1 + i = i + 1 := by omega
      rw [hn]
  have hH : (∀ i, i < (generate_hd_image aH netH).sleeps.length →
      (generate_hd_image aH netH).sleeps[i]? =
        some (BACKOFF_INIT * RETRY_BACKOFF ^ (i + 1))) ∧
      List.Chain' (· < ·) (generate_hd_image aH netH).sleeps := by
    rcases hd_trace_cases aH netH with ⟨_, he⟩ | ⟨_, he⟩ <;> rw [he]
    · exact ⟨fun i hi => by simp [emptyTrace] at hi, by simp [emptyTrace]⟩
    · obtain ⟨m, hm⟩ := runLoop_sleeps_shape (RETRY_COUNT + 1) 0 none (by omega)
      rw [hm]
      refine ⟨fun i hi => ?_, sleeps_shape_chain⟩
      rw [sleeps_shape_getElem hi]
      have hn : 0 + 1 + i = i + 1 := by omega
      rw [hn]
  exact ⟨hE.1, hE.2, hH.1, hH.2, lifestyle_sleeps aL netL⟩

/-- Witness for C8: a call whose attempts all fail transiently records the
sleeps 1.5 and 2.25 in order. -/
theorem C8_witness :
    0 < (erase_foreground { api_key := "abcd1234efgh", image_url := some "https://e/x" }
        (fun _ => .transportError "conn")).sleeps.length ∧
    (erase_foreground { api_key := "abcd1234efgh", image_url := some "https://e/x" }
        (fun _ => .transportError "conn")).sleeps[0]? =
      some (BACKOFF_INIT * RETRY_BACKOFF ^ (0 + 1)) :=
  ⟨by decide,
   (C8_backoff_schedule { api_key := "abcd1234efgh", image_url := some "https://e/x" }
      { prompt := "p", api_key := "k" }
      { api_key := "k", image_data := [1], scene_description := "s" }
      (fun _ => .transportError "conn") (fun _ => .transportError "conn")
      (fun _ => .transportError "conn")).1 0 (by decide)⟩

/-- C9 (amended): `erase_foreground` and `generate_hd_image` pass the
15-unit `DEFAULT_TIMEOUT` on every POST; `lifestyle_shot_by_text` passes no
timeout at all (its POSTs can wait indefinitely). -/
theorem C9_amended_timeout (aE : EraseArgs) (aH : HdArgs) (aL : LifestyleArgs)
    (netE netH netL : Net) :
    DEFAULT_TIMEOUT = 15 ∧
    (∀ r ∈ (erase_foreground aE netE).reqs, r.timeout = some DEFAULT_TIMEOUT) ∧
    (∀ r ∈ (generate_hd_image aH netH).reqs, r.timeout = some DEFAULT_TIMEOUT) ∧
    (∀ r ∈ (lifestyle_shot_by_text aL netL).reqs, r.timeout = none) := by
  refine ⟨rfl, ?_, ?_, ?_⟩
  · rcases erase_trace_cases aE netE with ⟨_, he⟩ | ⟨_, _, he⟩ | ⟨_, _, he⟩ <;> rw [he]
    · intro r hr; simp [emptyTrace] at hr
    · intro r hr; simp [emptyTrace] at hr
    · intro r hr
      rw [runLoop_req_mem _ _ _ _ hr]
  · rcases hd_trace_cases aH netH with ⟨_, he⟩ | ⟨_, he⟩ <;> rw [he]
    · intro r hr; simp [emptyTrace] at hr
    · intro r hr
      rw [runLoop_req_mem _ _ _ _ hr]
  · intro r hr
    rw [lifestyle_reqs] at hr
    rw [List.mem_singleton.mp hr]

/-- Counterexample to C9 as stated: the single POST of
`lifestyle_shot_by_text` is issued with no timeout. -/
theorem C9_counterexample :
    (lifestyle_shot_by_text
      { api_key := "abcd1234efgh", image_data := [1], scene_description := "s" }
      (fun _ => .transportError "conn")).reqs.map (fun r => r.timeout) = [none] := by
  decide

/-- Witness for C9 at a concrete call. -/
theorem C9_witness :
    (⟨eraseUrl, erase_headers "abcd1234efgh",
       erase_payload { api_key := "abcd1234efgh", image_url := some "https://e/x" },
       some DEFAULT_TIMEOUT⟩ : Request).timeout = some DEFAULT_TIMEOUT :=
  (C9_amended_timeout { api_key := "abcd1234efgh", image_url := some "https://e/x" }
      { prompt := "p", api_key := "k" }
      { api_key := "k", image_data := [1], scene_description := "s" }
      (fun _ => .transportError "conn") (fun _ => .transportError "conn")
      (fun _ => .transportError "conn")).2.1 _ (by decide)

/-- C6 (amended): `erase_foreground` always sends Accept, Content-Type,
`api_token` and the bearer fallback; `generate_hd_image` sends the two
credential headers only when the credential is non-empty;
`lifestyle_shot_by_text` sends `api_token` (with the stripped credential)
but no Authorization bearer header at all. -/
theorem C6_amended_headers (aE : EraseArgs) (aH : HdArgs) (aL : LifestyleArgs)
    (netE netH netL : Net) :
    (∀ r ∈ (erase_foreground aE netE).reqs,
      r.headers = [("Accept", "application/json"), ("Content-Type", "application/json"),
        ("api_token", aE.api_key), ("Authorization", "Bearer " ++ aE.api_key)]) ∧
    (∀ r ∈ (generate_hd_image aH netH).reqs,
      r.headers = [("Accept", "application/json"), ("Content-Type", "application/json")] ++
        (if aH.api_key ≠ "" then
          [("api_token", aH.api_key), ("Authorization", "Bearer " ++ aH.api_key)]
         else [])) ∧
    (∀ r ∈ (lifestyle_shot_by_text aL netL).reqs,
      r.headers = [("api_token", pyStrip aL.api_key), ("Accept", "application/json"),
        ("Content-Type", "application/json")]) := by
  refine ⟨?_, ?_, ?_⟩
  · rcases erase_trace_cases aE netE with ⟨_, he⟩ | ⟨_, _, he⟩ | ⟨_, _, he⟩ <;> rw [he]
    · intro r hr; simp [emptyTrace] at hr
    · intro r hr; simp [emptyTrace] at hr
    · intro r hr
      rw [runLoop_req_mem _ _ _ _ hr]
      rfl
  · rcases hd_trace_cases aH netH with ⟨_, he⟩ | ⟨_, he⟩ <;> rw [he]
    · intro r hr; simp [emptyTrace] at hr
    · intro r hr
      rw [runLoop_req_mem _ _ _ _ hr]
      rfl
  · intro r hr
    rw [lifestyle_reqs] at hr
    rw [List.mem_singleton.mp hr]
    rfl

/-- Counterexample to C6 as stated: the lifestyle POST carries no
Authorization header. -/
theorem C6_counterexample :
    (lifestyle_shot_by_text
      { api_key := "abcd1234efgh", image_data := [1], scene_description := "s" }
      (fun _ => .transportError "conn")).reqs.map (fun r => r.headers.map Prod.fst) =
      [["api_token", "Accept", "Content-Type"]] ∧
    "Authorization" ∉ ["api_token", "Accept", "Content-Type"] := by
  refine ⟨by decide, by decide⟩

/-- Witness for C6 at a concrete call. -/
theorem C6_witness :
    (⟨eraseUrl, erase_headers "abcd1234efgh",
       erase_payload { api_key := "abcd1234efgh", image_url := some "https://e/x" },
       some DEFAULT_TIMEOUT⟩ : Request).headers =
      [("Accept", "application/json"), ("Content-Type", "application/json"),
       ("api_token", "abcd1234efgh"), ("Authorization", "Bearer " ++ "abcd1234efgh")] :=
  (C6_amended_headers { api_key := "abcd1234efgh", image_url := some "https://e/x" }
      { prompt := "p", api_key := "k" }
      { api_key := "k", image_data := [1], scene_description := "s" }
      (fun _ => .transportError "conn") (fun _ => .transportError "conn")
      (fun _ => .transportError "conn")).1 _ (by decide)

/-- Association-list key-skipping helpers for the payload lookups. -/
theorem keys_ne_guardSeg {k2 : String} {b : Bool} {l : List (String × JVal)}
    (h : ∀ p ∈ l, (k2 == p.1) = false) : ∀ p ∈ guardSeg b l, (k2 == p.1) = false := by
  intro p hp
  cases b
  · simp [guardSeg] at hp
  · exact h p (by simpa [guardSeg] using hp)

theorem keys_ne_single {k2 key : String} {v : JVal} (h : (k2 == key) = false) :
    ∀ p ∈ [(key, v)], (k2 == p.1) = false := by
  intro p hp
  rw [List.mem_singleton.mp hp]
  exact h

theorem keys_ne_optField {α : Type} {k2 key : String} {f : α → JVal}
    (h : (k2 == key) = false) (o : Option α) :
    ∀ p ∈ optField o key f, (k2 == p.1) = false := by
  intro p hp
  cases o with
  | none => simp [optField] at hp
  | some v =>
    have hpv : p = (key, f v) := by simpa [optField] using hp
    rw [hpv]
    exact h

theorem lookup_optField_some {α : Type} {o : Option α} {v : α} {key : String}
    {f : α → JVal} (h : o = some v) (rest : List (String × JVal)) :
    (optField o key f ++ rest).lookup key = some (f v) := by
  subst h
  simp [optField, List.lookup]

/-- C7 (amended): `generate_hd_image` clamps its numeric tunables before
inclusion in the body (results-count to [1,4], steps to [20,50], guidance
scale to [1,10]; in particular steps 5 is sent as 20 and 999 as 50), but
`lifestyle_shot_by_text` sends its results-count exactly as given, with no
clamp. -/
theorem C7_amended_clamps (aH : HdArgs) (aL : LifestyleArgs) :
    ((hd_payload aH).lookup "num_results" = some (.n (max 1 (min aH.num_results 4))) ∧
      1 ≤ max 1 (min aH.num_results 4) ∧ max 1 (min aH.num_results 4) ≤ 4) ∧
    (∀ v, aH.steps_num = some v →
      (hd_payload aH).lookup "steps_num" = some (.n (max 20 (min v 50))) ∧
      20 ≤ max 20 (min v 50) ∧ max 20 (min v 50) ≤ 50) ∧
    (∀ g, aH.text_guidance_scale = some g →
      (hd_payload aH).lookup "text_guidance_scale" = some (.q (max 1 (min g 10))) ∧
      1 ≤ max 1 (min g 10) ∧ max 1 (min g 10) ≤ 10) ∧
    (aH.steps_num = some 5 → (hd_payload aH).lookup "steps_num" = some (.n 20)) ∧
    (aH.steps_num = some 999 → (hd_payload aH).lookup "steps_num" = some (.n 50)) ∧
    (lifestyle_payload aL).lookup "num_results" = some (.n aL.num_results) := by
  have hkey3 : ∀ p ∈ [("prompt", JVal.s aH.prompt),
      ("num_results", JVal.n (max 1 (min aH.num_results 4))),
      ("sync", JVal.b aH.sync)], (("steps_num" : String) == p.1) = false := by
    intro p hp
    simp only [List.mem_cons, List.not_mem_nil, or_false] at hp
    rcases hp with h | h | h <;> rw [h] <;> rfl
  have hkey3g : ∀ p ∈ [("prompt", JVal.s aH.prompt),
      ("num_results", JVal.n (max 1 (min aH.num_results 4))),
      ("sync", JVal.b aH.sync)], (("text_guidance_scale" : String) == p.1) = false := by
    intro p hp
    simp only [List.mem_cons, List.not_mem_nil, or_false] at hp
    rcases hp with h | h | h <;> rw [h] <;> rfl
  have hsteps : ∀ v, aH.steps_num = some v →
      (hd_payload aH).lookup "steps_num" = some (.n (max 20 (min v 50))) := by
    intro v hv
    rw [hd_payload]
    simp only [List.append_assoc]
    rw [lookup_append_of_keys_ne hkey3,
      lookup_append_of_keys_ne (keys_ne_guardSeg (keys_ne_single (by decide))),
      lookup_append_of_keys_ne (keys_ne_guardSeg (keys_ne_single (by decide))),
      lookup_append_of_keys_ne (keys_ne_optField (by decide) aH.seed),
      lookup_optField_some hv]
  have hguid : ∀ g, aH.text_guidance_scale = some g →
      (hd_payload aH).lookup "text_guidance_scale" = some (.q (max 1 (min g 10))) := by
    intro g hg
    rw [hd_payload]
    simp only [List.append_assoc]
    rw [lookup_append_of_keys_ne hkey3g,
      lookup_append_of_keys_ne (keys_ne_guardSeg (keys_ne_single (by decide))),
      lookup_append_of_keys_ne (keys_ne_guardSeg (keys_ne_single (by decide))),
      lookup_append_of_keys_ne (keys_ne_optField (by decide) aH.seed),
      lookup_append_of_keys_ne (keys_ne_optField (by decide) aH.steps_num),
      lookup_optField_some hg]
  refine ⟨⟨?_, le_max_left _ _, max_le (by norm_num) (min_le_right _ _)⟩,
    fun v hv => ⟨hsteps v hv, le_max_left _ _, max_le (by norm_num) (min_le_right _ _)⟩,
    fun g hg => ⟨hguid g hg, le_max_left _ _, max_le (by norm_num) (min_le_right _ _)⟩,
    ?_, ?_, ?_⟩
  · rw [hd_payload]
    simp only [List.append_assoc, List.cons_append]
    simp [List.lookup]
  · intro h5
    have h := hsteps 5 h5
    have h20 : max 20 (min (5 : Int) 50) = 20 := by norm_num
    rw [h20] at h
    exact h
  · intro h999
    have h := hsteps 999 h999
    have h50 : max 20 (min (999 : Int) 50) = 50 := by norm_num
    rw [h50] at h
    exact h
  · rw [lifestyle_payload]
    simp only [List.append_assoc, List.cons_append]
    simp [List.lookup]

/-- Counterexample to C7 as stated: lifestyle_shot_by_text puts a requested
results-count of 99 into the body unclamped, though the claimed clamp range
is [1,4]. -/
theorem C7_counterexample :
    (lifestyle_payload
      { api_key := "k", image_data := [1], scene_description := "s", num_results := 99 }).lookup
      "num_results" = some (.n 99) ∧
    ¬ (99 : Int) ≤ 4 := by
  refine ⟨by decide, by decide⟩

/-- Witness for C7: steps 5 is clamped up to 20, and a lifestyle
results-count of 9 is passed through. -/
theorem C7_witness :
    (hd_payload { prompt := "p", api_key := "k", steps_num := some 5 }).lookup
      "steps_num" = some (.n 20) ∧
    (lifestyle_payload
      { api_key := "k", image_data := [1], scene_description := "s", num_results := 9 }).lookup
      "num_results" = some (.n 9) :=
  ⟨(C7_amended_clamps { prompt := "p", api_key := "k", steps_num := some 5 }
      { api_key := "k", image_data := [1], scene_description := "s", num_results := 9 }).2.2.2.1
      rfl,
   (C7_amended_clamps { prompt := "p", api_key := "k", steps_num := some 5 }
      { api_key := "k", image_data := [1], scene_description := "s", num_results := 9 }).2.2.2.2.2⟩

/-- An all-transient run: three attempts, two sleeps, exhausted-retries
error carrying the last transient description. -/
theorem runLoop_three_transient {cfg : LoopCfg} {req : Request} {net : Net}
    {d : Nat → String}
    (h : ∀ n, n < 3 → classify req.url (net n) = .transientC (d n)) :
    runLoop cfg req net (RETRY_COUNT + 1) 0 none =
      ⟨[req, req, req],
       [cfg.attemptLog 0, cfg.retryLog (d 0) 1, cfg.attemptLog 1, cfg.retryLog (d 1) 2,
        cfg.attemptLog 2],
       [BACKOFF_INIT * RETRY_BACKOFF ^ 1, BACKOFF_INIT * RETRY_BACKOFF ^ 2],
       .error (.exception (cfg.exhaustedMsg (d 2)))⟩ := by
  have h0 := h 0 (by omega)
  have h1 := h 1 (by omega)
  have h2 := h 2 (by omega)
  simp [runLoop, h0, h1, h2, RETRY_COUNT, strOfLast]

/-- C2 (amended): when every attempt fails transiently, `erase_foreground`
and `generate_hd_image` make exactly RETRY_COUNT+1 = 3 POST attempts and
raise an exhausted-retries error whose message contains the last transient
error's description and the attempt count; `lifestyle_shot_by_text` (see
the counterexample) makes only one attempt. -/
theorem C2_amended_retry_exhaustion (aE : EraseArgs) (aH : HdArgs) (netE netH : Net)
    (d e : Nat → String)
    (hkE : aE.api_key ≠ "")
    (hsE : (truthyOptBytes aE.image_data || truthyOptStr aE.image_url) = true)
    (hpH : aH.prompt ≠ "")
    (hdE : ∀ n, n < 3 → classify eraseUrl (netE n) = .transientC (d n))
    (hdH : ∀ n, n < 3 → classify (hdUrl aH.model_version) (netH n) = .transientC (e n)) :
    ((erase_foreground aE netE).reqs.length = 3 ∧
     (erase_foreground aE netE).result =
       .error (.exception ("Erase foreground failed after 3 attempts: " ++ d 2)) ∧
     occursIn (d 2) ("Erase foreground failed after 3 attempts: " ++ d 2) ∧
     occursIn "3 attempts" ("Erase foreground failed after 3 attempts: " ++ d 2)) ∧
    ((generate_hd_image aH netH).reqs.length = 3 ∧
     (generate_hd_image aH netH).result =
       .error (.exception ("HD image generation failed after 3 attempts: " ++ e 2)) ∧
     occursIn (e 2) ("HD image generation failed after 3 attempts: " ++ e 2) ∧
     occursIn "3 attempts" ("HD image generation failed after 3 attempts: " ++ e 2)) := by
  constructor
  · rcases erase_trace_cases aE netE with ⟨h0, _⟩ | ⟨_, h0, _⟩ | ⟨_, _, he⟩
    · exact absurd h0 hkE
    · rw [hsE] at h0; cases h0
    · rw [he, runLoop_three_transient hdE]
      refine ⟨rfl, ?_, occursIn_suffix _ _, occursIn_extend_right (by decide) _⟩
      show Except.error (PyErr.exception ("Erase foreground failed after " ++
        toString (RETRY_COUNT + 1) ++ " attempts: " ++ d 2)) = _
      rw [attempts_str,
        (by decide : (("Erase foreground failed after " ++ "3") ++ " attempts: " : String) =
          "Erase foreground failed after 3 attempts: ")]
  · rcases hd_trace_cases aH netH with ⟨h0, _⟩ | ⟨_, he⟩
    · exact absurd h0 hpH
    · rw [he, runLoop_three_transient hdH]
      refine ⟨rfl, ?_, occursIn_suffix _ _, occursIn_extend_right (by decide) _⟩
      show Except.error (PyErr.exception ("HD image generation failed after " ++
        toString (RETRY_COUNT + 1) ++ " attempts: " ++ e 2)) = _
      rw [attempts_str,
        (by decide : (("HD image generation failed after " ++ "3") ++ " attempts: " : String) =
          "HD image generation failed after 3 attempts: ")]

/-- Counterexample to C2 as stated: with a connection error on every
attempt, `lifestyle_shot_by_text` makes exactly one POST (not 3) and
raises a wrapper error that mentions no attempt count. -/
theorem C2_counterexample :
    (lifestyle_shot_by_text
      { api_key := "abcd1234efgh", image_data := [1], scene_description := "s" }
      (fun _ => .transportError "connection reset")).reqs.length = 1 ∧
    (lifestyle_shot_by_text
      { api_key := "abcd1234efgh", image_data := [1], scene_description := "s" }
      (fun _ => .transportError "connection reset")).result =
      .error (.exception "Lifestyle shot generation failed: connection reset") := by
  refine ⟨by decide, by decide⟩

/-- Witness for C2 at a concrete all-transient environment. -/
theorem C2_witness :
    (erase_foreground { api_key := "abcd1234efgh", image_url := some "https://e/x" }
      (fun _ => .transportError "boom")).reqs.length = 3 ∧
    (erase_foreground { api_key := "abcd1234efgh", image_url := some "https://e/x" }
      (fun _ => .transportError "boom")).result =
      .error (.exception ("Erase foreground failed after 3 attempts: " ++ "boom")) :=
  ⟨((C2_amended_retry_exhaustion
      { api_key := "abcd1234efgh", image_url := some "https://e/x" }
      { prompt := "p", api_key := "k" }
      (fun _ => .transportError "boom") (fun _ => .transportError "boom")
      (fun _ => "boom") (fun _ => "boom") (by decide) (by decide) (by decide)
      (fun n _ => rfl) (fun n _ => rfl)).1).1,
   ((C2_amended_retry_exhaustion
      { api_key := "abcd1234efgh", image_url := some "https://e/x" }
      { prompt := "p", api_key := "k" }
      (fun _ => .transportError "boom") (fun _ => .transportError "boom")
      (fun _ => "boom") (fun _ => "boom") (by decide) (by decide) (by decide)
      (fun n _ => rfl) (fun n _ => rfl)).1).2.1⟩

/-- C3 (amended): `erase_foreground` raises its input-validation errors
(missing credential, missing image source) before any request;
`generate_hd_image` validates only the prompt — with an empty credential it
still issues a POST; `lifestyle_shot_by_text` validates nothing and always
issues its POST. -/
theorem C3_amended_validation (aE : EraseArgs) (netE : Net) (aH : HdArgs) (netH : Net)
    (aL : LifestyleArgs) (netL : Net) :
    (aE.api_key = "" →
      erase_foreground aE netE = emptyTrace (.valueError "API key is missing")) ∧
    ((truthyOptBytes aE.image_data || truthyOptStr aE.image_url) = false →
      aE.api_key ≠ "" →
      erase_foreground aE netE =
        emptyTrace (.valueError "Either image_data or image_url must be provided")) ∧
    (aH.prompt = "" →
      generate_hd_image aH netH =
        emptyTrace (.valueError "Prompt is required for image generation")) ∧
    (aH.prompt ≠ "" → 1 ≤ (generate_hd_image aH netH).reqs.length) ∧
    1 ≤ (lifestyle_shot_by_text aL netL).reqs.length := by
  refine ⟨?_, ?_, ?_, ?_, ?_⟩
  · intro h
    rw [erase_foreground, if_pos h]
  · intro hsrc hk
    rw [erase_foreground, if_neg hk, if_pos (by simp [hsrc])]
  · intro h
    rw [generate_hd_image, if_pos h]
  · intro h
    rcases hd_trace_cases aH netH with ⟨h0, _⟩ | ⟨_, he⟩
    · exact absurd h0 h
    · rw [he]
      exact runLoop_reqs_nonempty RETRY_COUNT 0 none
  · rw [lifestyle_reqs]
    simp

/-- Counterexample to C3 as stated: `generate_hd_image` with an empty
credential (a missing required input) issues a network request and fails
with an HTTP error, not with an input-validation (ValueError) error. -/
theorem C3_counterexample :
    (generate_hd_image { prompt := "a red car", api_key := "" }
      (fun _ => .response ⟨404, "NOT FOUND", "nope",
        .error "Expecting value: line 1 column 1 (char 0)"⟩)).reqs.length = 1 ∧
    (generate_hd_image { prompt := "a red car", api_key := "" }
      (fun _ => .response ⟨404, "NOT FOUND", "nope",
        .error "Expecting value: line 1 column 1 (char 0)"⟩)).result =
      .error (.exception "HD image generation failed (HTTP 404): nope") := by
  refine ⟨by decide, by decide⟩

/-- Witness for C3 at a concrete call with a missing credential. -/
theorem C3_witness :
    erase_foreground { api_key := "" } (fun _ => .transportError "conn") =
      emptyTrace (.valueError "API key is missing") :=
  (C3_amended_validation { api_key := "" } (fun _ => .transportError "conn")
    { prompt := "p", api_key := "k" } (fun _ => .transportError "conn")
    { api_key := "k", image_data := [1], scene_description := "s" }
    (fun _ => .transportError "conn")).1 rfl

/-- C4 (amended): a response whose body cannot be parsed as JSON yields an
immediate decode error with no further attempts only when its HTTP status
is outside [400,600) (the only statuses for which the body is parsed at
all; an error status is classified by status alone and its body is never
parsed — see the counterexample). This holds at whatever attempt `j` the
response arrives after transient attempts; `lifestyle_shot_by_text` has
only attempt 0. -/
theorem C4_amended_decode (aE : EraseArgs) (aH : HdArgs) (aL : LifestyleArgs)
    (netE netH netL : Net) (j : Nat) (dE dH : Nat → String)
    (rE rH rL : HttpResponse) (jdE jdH jdL : String)
    (hkE : aE.api_key ≠ "")
    (hsE : (truthyOptBytes aE.image_data || truthyOptStr aE.image_url) = true)
    (hpH : aH.prompt ≠ "") (hj : j ≤ RETRY_COUNT)
    (hpreE : ∀ n, n < j → classify eraseUrl (netE n) = .transientC (dE n))
    (hnE : netE j = .response rE) (hstE : ¬ (400 ≤ rE.status ∧ rE.status < 600))
    (hjE : rE.jsonParse = .error jdE)
    (hpreH : ∀ n, n < j → classify (hdUrl aH.model_version) (netH n) = .transientC (dH n))
    (hnH : netH j = .response rH) (hstH : ¬ (400 ≤ rH.status ∧ rH.status < 600))
    (hjH : rH.jsonParse = .error jdH)
    (hnL : netL 0 = .response rL) (hstL : ¬ (400 ≤ rL.status ∧ rL.status < 600))
    (hjL : rL.jsonParse = .error jdL) :
    ((erase_foreground aE netE).reqs.length = j + 1 ∧
     (erase_foreground aE netE).result =
       .error (.exception ("Non-JSON response: " ++ jdE))) ∧
    ((generate_hd_image aH netH).reqs.length = j + 1 ∧
     (generate_hd_image aH netH).result =
       .error (.exception ("HD image generation returned non-JSON response: " ++ jdH))) ∧
    ((lifestyle_shot_by_text aL netL).reqs.length = 1 ∧
     (lifestyle_shot_by_text aL netL).result =
       .error (.exception ("Lifestyle shot generation failed: " ++ jdL))) := by
  have hrc : RETRY_COUNT = 2 := rfl
  rw [hrc] at hj
  refine ⟨?_, ?_, ?_⟩
  · rcases erase_trace_cases aE netE with ⟨h0, _⟩ | ⟨_, h0, _⟩ | ⟨_, _, he⟩
    · exact absurd h0 hkE
    · rw [hsE] at h0; cases h0
    · rw [he]
      have hdec : classify eraseUrl (netE j) = .decodeC jdE := by
        rw [hnE]; exact classify_decode_of hstE hjE
      interval_cases j
      · exact ⟨by simp [runLoop, hdec, RETRY_COUNT], by simp [runLoop, hdec, RETRY_COUNT, eraseCfg]⟩
      · have hp0 := hpreE 0 (by omega)
        exact ⟨by simp [runLoop, hp0, hdec, RETRY_COUNT],
          by simp [runLoop, hp0, hdec, RETRY_COUNT, eraseCfg]⟩
      · have hp0 := hpreE 0 (by omega)
        have hp1 := hpreE 1 (by omega)
        exact ⟨by simp [runLoop, hp0, hp1, hdec, RETRY_COUNT],
          by simp [runLoop, hp0, hp1, hdec, RETRY_COUNT, eraseCfg]⟩
  · rcases hd_trace_cases aH netH with ⟨h0, _⟩ | ⟨_, he⟩
    · exact absurd h0 hpH
    · rw [he]
      have hdec : classify (hdUrl aH.model_version) (netH j) = .decodeC jdH := by
        rw [hnH]; exact classify_decode_of hstH hjH
      interval_cases j
      · exact ⟨by simp [runLoop, hdec, RETRY_COUNT], by simp [runLoop, hdec, RETRY_COUNT, hdCfg]⟩
      · have hp0 := hpreH 0 (by omega)
        exact ⟨by simp [runLoop, hp0, hdec, RETRY_COUNT],
          by simp [runLoop, hp0, hdec, RETRY_COUNT, hdCfg]⟩
      · have hp0 := hpreH 0 (by omega)
        have hp1 := hpreH 1 (by omega)
        exact ⟨by simp [runLoop, hp0, hp1, hdec, RETRY_COUNT],
          by simp [runLoop, hp0, hp1, hdec, RETRY_COUNT, hdCfg]⟩
  · rw [lifestyle_decode_error aL netL rL jdL hnL hstL hjL]
    exact ⟨rfl, rfl⟩

/-- Counterexample to C4 as stated: a 500 response whose body is not valid
JSON is retried (3 attempts, exhausted-retries error), not raised as an
immediate decode error — the body is never parsed for error statuses. -/
theorem C4_counterexample :
    (erase_foreground { api_key := "abcd1234efgh", image_url := some "https://img.example/x.png" }
      (fun _ => .response ⟨500, "INTERNAL SERVER ERROR", "<html>oops</html>",
        .error "Expecting value: line 1 column 1 (char 0)"⟩)).reqs.length = 3 ∧
    (erase_foreground { api_key := "abcd1234efgh", image_url := some "https://img.example/x.png" }
      (fun _ => .response ⟨500, "INTERNAL SERVER ERROR", "<html>oops</html>",
        .error "Expecting value: line 1 column 1 (char 0)"⟩)).result =
      .error (.exception ("Erase foreground failed after 3 attempts: " ++
        "500 Server Error: INTERNAL SERVER ERROR for url: https://engine.prod.bria-api.com/v1/erase_foreground")) := by
  refine ⟨by decide, by decide⟩

/-- Witness for C4: a transport error then a 200 response with an
unparseable body ends the call at attempt 1 with a decode error. -/
theorem C4_witness :
    (erase_foreground { api_key := "abcd1234efgh", image_url := some "https://e/x" }
      (fun n => if n = 0 then .transportError "conn"
        else .response ⟨200, "OK", "not json", .error "Expecting value"⟩)).reqs.length = 1 + 1 ∧
    (erase_foreground { api_key := "abcd1234efgh", image_url := some "https://e/x" }
      (fun n => if n = 0 then .transportError "conn"
        else .response ⟨200, "OK", "not json", .error "Expecting value"⟩)).result =
      .error (.exception ("Non-JSON response: " ++ "Expecting value")) :=
  (C4_amended_decode { api_key := "abcd1234efgh", image_url := some "https://e/x" }
    { prompt := "p", api_key := "k" }
    { api_key := "k", image_data := [1], scene_description := "s" }
    (fun n => if n = 0 then .transportError "conn"
      else .response ⟨200, "OK", "not json", .error "Expecting value"⟩)
    (fun n => if n = 0 then .transportError "conn"
      else .response ⟨200, "OK", "not json", .error "Expecting value"⟩)
    (fun _ => .response ⟨200, "OK", "not json", .error "Expecting value"⟩)
    1 (fun _ => "conn") (fun _ => "conn")
    ⟨200, "OK", "not json", .error "Expecting value"⟩
    ⟨200, "OK", "not json", .error "Expecting value"⟩
    ⟨200, "OK", "not json", .error "Expecting value"⟩
    "Expecting value" "Expecting value" "Expecting value"
    (by decide) (by decide) (by decide) (by decide)
    (by intro n hn; interval_cases n; rfl) rfl (by decide) rfl
    (by intro n hn; interval_cases n; rfl) rfl (by decide) rfl
    rfl (by decide) rfl).1

/-- C5 (amended): on a first-attempt HTTP status in [400,500) other than
429, all three functions fail immediately after exactly one attempt;
`erase_foreground` and `generate_hd_image` raise an error containing the
status code and the response body text, while `lifestyle_shot_by_text`
wraps `str(HTTPError)`, which contains the status code but not the body
text (see the counterexample). -/
theorem C5_amended_terminal_4xx (aE : EraseArgs) (aH : HdArgs) (aL : LifestyleArgs)
    (netE netH netL : Net) (rE rH rL : HttpResponse)
    (hkE : aE.api_key ≠ "")
    (hsE : (truthyOptBytes aE.image_data || truthyOptStr aE.image_url) = true)
    (hpH : aH.prompt ≠ "")
    (hnE : netE 0 = .response rE) (h4E : 400 ≤ rE.status) (h5E : rE.status < 500)
    (h429E : rE.status ≠ 429)
    (hnH : netH 0 = .response rH) (h4H : 400 ≤ rH.status) (h5H : rH.status < 500)
    (h429H : rH.status ≠ 429)
    (hnL : netL 0 = .response rL) (h4L : 400 ≤ rL.status) (h5L : rL.status < 500) :
    ((erase_foreground aE netE).reqs.length = 1 ∧
     (erase_foreground aE netE).result = .error (.exception
       ("Erase foreground failed (HTTP " ++ toString rE.status ++ "): " ++ rE.text)) ∧
     occursIn (toString rE.status)
       ("Erase foreground failed (HTTP " ++ toString rE.status ++ "): " ++ rE.text) ∧
     occursIn rE.text
       ("Erase foreground failed (HTTP " ++ toString rE.status ++ "): " ++ rE.text)) ∧
    ((generate_hd_image aH netH).reqs.length = 1 ∧
     (generate_hd_image aH netH).result = .error (.exception
       ("HD image generation failed (HTTP " ++ toString rH.status ++ "): " ++ rH.text)) ∧
     occursIn (toString rH.status)
       ("HD image generation failed (HTTP " ++ toString rH.status ++ "): " ++ rH.text) ∧
     occursIn rH.text
       ("HD image generation failed (HTTP " ++ toString rH.status ++ "): " ++ rH.text)) ∧
    ((lifestyle_shot_by_text aL netL).reqs.length = 1 ∧
     (lifestyle_shot_by_text aL netL).result = .error (.exception
       ("Lifestyle shot generation failed: " ++
         httpErrorStr rL.status rL.reason lifestyleUrl)) ∧
     occursIn (toString rL.status)
       ("Lifestyle shot generation failed: " ++
         httpErrorStr rL.status rL.reason lifestyleUrl)) := by
  refine ⟨?_, ?_, ?_⟩
  · rcases erase_trace_cases aE netE with ⟨h0, _⟩ | ⟨_, h0, _⟩ | ⟨_, _, he⟩
    · exact absurd h0 hkE
    · rw [hsE] at h0; cases h0
    · rw [he]
      have hcl : classify eraseUrl (netE 0) = .terminalC rE.status rE.text := by
        rw [hnE]; exact classify_terminal_of h4E h5E h429E
      rw [runLoop_step_terminal RETRY_COUNT none hcl]
      exact ⟨rfl, rfl,
        occursIn_extend_right (occursIn_mid _ _ _) _,
        occursIn_suffix _ _⟩
  · rcases hd_trace_cases aH netH with ⟨h0, _⟩ | ⟨_, he⟩
    · exact absurd h0 hpH
    · rw [he]
      have hcl : classify (hdUrl aH.model_version) (netH 0) =
          .terminalC rH.status rH.text := by
        rw [hnH]; exact classify_terminal_of h4H h5H h429H
      rw [runLoop_step_terminal RETRY_COUNT none hcl]
      exact ⟨rfl, rfl,
        occursIn_extend_right (occursIn_mid _ _ _) _,
        occursIn_suffix _ _⟩
  · rw [lifestyle_http_error aL netL rL hnL ⟨h4L, by omega⟩]
    refine ⟨rfl, rfl, ?_⟩
    rw [httpErrorStr]
    exact occursIn_extend_left
      (occursIn_extend_right (occursIn_extend_right (occursIn_extend_right
        (occursIn_prefix_self _ _) _) _) _) _

/-- Counterexample to C5 as stated: on a 404, the lifestyle error message
contains the status but not the response body text. -/
theorem C5_counterexample :
    (lifestyle_shot_by_text
      { api_key := "abcd1234efgh", image_data := [1], scene_description := "s" }
      (fun _ => .response ⟨404, "NOT FOUND", "missing resource body", .error "x"⟩)).result =
      .error (.exception ("Lifestyle shot generation failed: " ++
        "404 Client Error: NOT FOUND for url: https://engine.prod.bria-api.com/v1/product/lifestyle_shot_by_text")) ∧
    ¬ occursIn "missing resource body"
      ("Lifestyle shot generation failed: " ++
        "404 Client Error: NOT FOUND for url: https://engine.prod.bria-api.com/v1/product/lifestyle_shot_by_text") := by
  refine ⟨by decide, by decide⟩

/-- Witness for C5 at a concrete 404 environment. -/
theorem C5_witness :
    (erase_foreground { api_key := "abcd1234efgh", image_url := some "https://e/x" }
      (fun _ => .response ⟨404, "NOT FOUND", "missing resource body", .error "x"⟩)).reqs.length = 1 ∧
    occursIn "missing resource body"
      ("Erase foreground failed (HTTP " ++ toString (404 : Nat) ++ "): " ++
        "missing resource body") :=
  ⟨((C5_amended_terminal_4xx
      { api_key := "abcd1234efgh", image_url := some "https://e/x" }
      { prompt := "p", api_key := "k" }
      { api_key := "k", image_data := [1], scene_description := "s" }
      (fun _ => .response ⟨404, "NOT FOUND", "missing resource body", .error "x"⟩)
      (fun _ => .response ⟨404, "NOT FOUND", "missing resource body", .error "x"⟩)
      (fun _ => .response ⟨404, "NOT FOUND", "missing resource body", .error "x"⟩)
      ⟨404, "NOT FOUND", "missing resource body", .error "x"⟩
      ⟨404, "NOT FOUND", "missing resource body", .error "x"⟩
      ⟨404, "NOT FOUND", "missing resource body", .error "x"⟩
      (by decide) (by decide) (by decide)
      rfl (by decide) (by decide) (by decide)
      rfl (by decide) (by decide) (by decide)
      rfl (by decide) (by decide)).1).1,
   ((C5_amended_terminal_4xx
      { api_key := "abcd1234efgh", image_url := some "https://e/x" }
      { prompt := "p", api_key := "k" }
      { api_key := "k", image_data := [1], scene_description := "s" }
      (fun _ => .response ⟨404, "NOT FOUND", "missing resource body", .error "x"⟩)
      (fun _ => .response ⟨404, "NOT FOUND", "missing resource body", .error "x"⟩)
      (fun _ => .response ⟨404, "NOT FOUND", "missing resource body", .error "x"⟩)
      ⟨404, "NOT FOUND", "missing resource body", .error "x"⟩
      ⟨404, "NOT FOUND", "missing resource body", .error "x"⟩
      ⟨404, "NOT FOUND", "missing resource body", .error "x"⟩
      (by decide) (by decide) (by decide)
      rfl (by decide) (by decide) (by decide)
      rfl (by decide) (by decide) (by decide)
      rfl (by decide) (by decide)).1).2.2.2⟩

/-- C1 (amended): `erase_foreground` and `generate_hd_image` emit the
credential only through `_mask_key`: for every credential that is
distinguishable from the fixed message text (length ≥ 2, none of the
characters space, dot, equals, closing parenthesis, not a substring of any
fixed message fragment, of the endpoint URL, or of its own masked form) and
that the network side never echoes back, no log line and no raised error
message contains the full credential. `lifestyle_shot_by_text` is excluded:
it prints its headers dict, credential included, before every request (see
the counterexample, which also shows that a credential colliding with the
fixed log text — e.g. "attempt=0" — defeats masking even in
`generate_hd_image`). -/
theorem C1_amended_masking (k : String) (aE : EraseArgs) (aH : HdArgs)
    (netE netH : Net)
    (hkE : aE.api_key = k) (hkH : aH.api_key = k)
    (hlen : 2 ≤ k.data.length)
    (hsp : ' ' ∉ k.data) (hdot : '.' ∉ k.data) (heq : '=' ∉ k.data)
    (hpar : ')' ∉ k.data)
    (hstatE : ∀ s ∈ eraseFrags, ¬ occursIn k s)
    (hstatH : ∀ s ∈ hdFrags, ¬ occursIn k s)
    (hurl : ¬ occursIn k (hdUrl aH.model_version))
    (hmask : ¬ occursIn k (_mask_key (some k)))
    (hnetE : NetClean k netE) (hnetH : NetClean k netH) :
    (∀ line ∈ (erase_foreground aE netE).logs, ¬ occursIn k line) ∧
    (∀ e, (erase_foreground aE netE).result = .error e → ¬ occursIn k e.msg) ∧
    (∀ line ∈ (generate_hd_image aH netH).logs, ¬ occursIn k line) ∧
    (∀ e, (generate_hd_image aH netH).result = .error e → ¬ occursIn k e.msg) := by
  have hEpart : (∀ line ∈ (erase_foreground aE netE).logs, ¬ occursIn k line) ∧
      (∀ e, (erase_foreground aE netE).result = .error e → ¬ occursIn k e.msg) := by
    rcases erase_trace_cases aE netE with ⟨_, he⟩ | ⟨_, _, he⟩ | ⟨_, _, he⟩
    · rw [he]
      refine ⟨by intro line hl; simp [emptyTrace] at hl, ?_⟩
      intro e hres
      simp only [emptyTrace, Except.error.injEq] at hres
      rw [← hres]
      exact hstatE _ (by decide)
    · rw [he]
      refine ⟨by intro line hl; simp [emptyTrace] at hl, ?_⟩
      intro e hres
      simp only [emptyTrace, Except.error.injEq] at hres
      rw [← hres]
      exact hstatE _ (by decide)
    · rw [he]
      have hcfg : CfgClean k (eraseCfg aE.api_key) eraseUrl := by
        rw [hkE]
        exact eraseCfgClean hlen hsp hdot heq hpar hstatE hmask
      exact runLoop_clean hcfg hnetE (RETRY_COUNT + 1) 0 none rfl
        (by intro d hd; cases hd) (fun _ => Nat.succ_ne_zero _)
  have hHpart : (∀ line ∈ (generate_hd_image aH netH).logs, ¬ occursIn k line) ∧
      (∀ e, (generate_hd_image aH netH).result = .error e → ¬ occursIn k e.msg) := by
    rcases hd_trace_cases aH netH with ⟨_, he⟩ | ⟨_, he⟩
    · rw [he]
      refine ⟨by intro line hl; simp [emptyTrace] at hl, ?_⟩
      intro e hres
      simp only [emptyTrace, Except.error.injEq] at hres
      rw [← hres]
      exact hstatH _ (by decide)
    · rw [he]
      have hcfg : CfgClean k (hdCfg aH.api_key aH.model_version) (hdUrl aH.model_version) := by
        rw [hkH]
        exact hdCfgClean hlen hsp hdot heq hpar hstatH hurl hmask
      exact runLoop_clean hcfg hnetH (RETRY_COUNT + 1) 0 none rfl
        (by intro d hd; cases hd) (fun _ => Nat.succ_ne_zero _)
  exact ⟨hEpart.1, hEpart.2, hHpart.1, hHpart.2⟩

/-- Counterexample to C1 as stated: `lifestyle_shot_by_text` prints its
headers dict — full credential included — to the log before the POST; and
a credential that happens to equal fixed log text ("attempt=0") appears in
full even in a `generate_hd_image` log line despite the masking. -/
theorem C1_counterexample :
    occursIn "abcd1234efgh" ("Headers: " ++ headersRepr (lifestyle_headers "abcd1234efgh")) ∧
    ("Headers: " ++ headersRepr (lifestyle_headers "abcd1234efgh")) ∈
      (lifestyle_shot_by_text
        { api_key := "abcd1234efgh", image_data := [1], scene_description := "s" }
        (fun _ => .transportError "conn")).logs ∧
    occursIn "attempt=0" ((hdCfg "attempt=0" "2.2").attemptLog 0) ∧
    ((hdCfg "attempt=0" "2.2").attemptLog 0) ∈
      (generate_hd_image { prompt := "p", api_key := "attempt=0" }
        (fun _ => .response ⟨404, "NOT FOUND", "x", .error "y"⟩)).logs := by
  refine ⟨by decide, by decide, by decide, by decide⟩

/-- Witness for C1 at credential "abcd1234efgh" and a 404 environment. -/
theorem C1_witness :
    ¬ occursIn "abcd1234efgh" ((eraseCfg "abcd1234efgh").attemptLog 0) :=
  (C1_amended_masking "abcd1234efgh"
    { api_key := "abcd1234efgh", image_url := some "https://e/x" }
    { prompt := "p", api_key := "abcd1234efgh" }
    (fun _ => .response ⟨404, "NOT FOUND", "nope", .error "Expecting value"⟩)
    (fun _ => .response ⟨404, "NOT FOUND", "nope", .error "Expecting value"⟩)
    rfl rfl (by decide) (by decide) (by decide) (by decide) (by decide)
    (by decide) (by decide) (by decide) (by decide)
    (by intro n s hs
        simp only [netResultStrings, List.mem_append, List.mem_cons,
          List.not_mem_nil, or_false, List.mem_singleton] at hs
        rcases hs with (h | h | h) | h <;> subst h <;> decide)
    (by intro n s hs
        simp only [netResultStrings, List.mem_append, List.mem_cons,
          List.not_mem_nil, or_false, List.mem_singleton] at hs
        rcases hs with (h | h | h) | h <;> subst h <;> decide)).1
    _ (by decide)

end AdSnap
